import Mathlib

/-!
Verification of the Voice Router SDK (Rust, `rust-sdk/src`).

This file gives a shallow embedding of the SDK's data model and the
operations relevant to its specification: the canonical response/event
schema (`types/mod.rs`), the audio-encoding tables (`audio_encoding.rs`),
the audio chunk buffer and streaming helpers (`adapters/streaming.rs`),
the three vendor adapters (`adapters/assemblyai.rs`, `adapters/gladia.rs`,
`adapters/deepgram.rs`) and the provider router (`router.rs`).

Modelling conventions:
- Rust `f64` values are embedded as `Rat`; no claim under scrutiny depends
  on IEEE-754 rounding, only on structural facts and exact divisions.
- `serde_json::Value` payloads are embedded as their serialized `String`
  form where the code only passes them through; the `raw` field of a
  response keeps the whole vendor value via the `RawValue` inductive.
- Vendor wire types generated by OpenAPI (not part of `src/`) are embedded
  with exactly the fields and double-`Option` shapes the adapter code
  dereferences.
- Network effects are passed in explicitly: each fallible vendor call is a
  parameter of the embedded operation (`Except String _` outcomes), and a
  polling fetch is a function from the attempt index to an outcome.
- Rust panics are embedded as `Option.none` results.
- `HashMap`/`HashSet` iteration order is unspecified in Rust; maps are
  embedded as association lists and sets as first-occurrence dedup, which
  fixes one admissible order.
-/

/-- Field named `end` in the Rust source; `end` is a Lean keyword, so the
embedding uses `end_` throughout. -/
def endFieldNote : Unit := ()

/-- Single-quote character, used to build error messages that quote
a value (the Rust sources use literal apostrophes in `format!` strings). -/
def squo : String := String.singleton (Char.ofNat 39)

/-! ## Canonical schema (`types/mod.rs`) -/

/-- Supported transcription providers (`TranscriptionProvider`). -/
inductive TranscriptionProvider
  | gladia
  | assemblyAI
  | deepgram
  | azureStt
  | openAIWhisper
  | speechmatics
deriving DecidableEq, Repr

/-- Transcription status (`TranscriptionStatus`). -/
inductive TranscriptionStatus
  | queued
  | processing
  | completed
  | error
deriving DecidableEq, Repr

/-- Speaker information from diarization (`Speaker`). -/
structure Speaker where
  id : String
  label : Option String
  confidence : Option Rat
deriving DecidableEq, Repr

/-- Word-level transcription with timing (`Word`); times in seconds. -/
structure Word where
  text : String
  start : Rat
  end_ : Rat
  confidence : Option Rat
  speaker : Option String
deriving DecidableEq, Repr

/-- Utterance (`Utterance`); times in seconds. -/
structure Utterance where
  text : String
  start : Rat
  end_ : Rat
  speaker : Option String
  confidence : Option Rat
  words : Option (List Word)
deriving DecidableEq, Repr

/-- Transcription error payload (`TranscriptionError`). -/
structure TranscriptionError where
  code : String
  message : String
  details : Option String
  status_code : Option Nat
deriving DecidableEq, Repr

/-- Transcription data (`TranscriptionData`). -/
structure TranscriptionData where
  id : String
  text : String
  confidence : Option Rat
  status : TranscriptionStatus
  language : Option String
  duration : Option Rat
  speakers : Option (List Speaker)
  words : Option (List Word)
  utterances : Option (List Utterance)
  summary : Option String
  metadata : Option (List (String × String))
  created_at : Option String
  completed_at : Option String
deriving DecidableEq, Repr

/-- Streaming event types (`StreamEventType`). -/
inductive StreamEventType
  | open_
  | transcript
  | utterance
  | metadata
  | error
  | close
deriving DecidableEq, Repr

/-- Streaming transcription event (`StreamEvent`). The `data` field holds a
serialized JSON payload where the source holds a `serde_json::Value`. -/
structure StreamEvent where
  event_type : StreamEventType
  text : Option String
  is_final : Option Bool
  utterance : Option Utterance
  words : Option (List Word)
  speaker : Option String
  confidence : Option Rat
  error : Option TranscriptionError
  data : Option String
deriving DecidableEq, Repr

/-! ## Vendor wire types

Embedded with exactly the fields the adapter code reads. `Option (Option _)`
mirrors the generated clients' double-`Option` artifacts that the adapters
flatten. -/

/-- AssemblyAI transcript status (`TranscriptStatus` of the generated client). -/
inductive AaiStatus
  | queued
  | processing
  | completed
  | error
deriving DecidableEq, Repr

/-- AssemblyAI word (`TranscriptWord`); times in milliseconds. -/
structure TranscriptWord where
  text : String
  start : Int
  end_ : Int
  confidence : Rat
  speaker : Option String
deriving DecidableEq, Repr

/-- AssemblyAI utterance (`TranscriptUtterance`); times in milliseconds. -/
structure TranscriptUtterance where
  text : String
  start : Int
  end_ : Int
  confidence : Rat
  speaker : String
  words : List TranscriptWord
deriving DecidableEq, Repr

/-- AssemblyAI batch transcript (`Transcript` of the generated client).
`language_code` keeps the debug rendering of the language enum, which is
all the adapter uses of it. -/
structure AaiTranscript where
  id : String
  status : AaiStatus
  error : Option String
  text : Option (Option String)
  words : Option (Option (List TranscriptWord))
  utterances : Option (Option (List TranscriptUtterance))
  summary : Option (Option String)
  confidence : Option (Option Rat)
  audio_duration : Option (Option Int)
  language_code : Option String
deriving DecidableEq, Repr

/-- Gladia pre-recorded job status (`pre_recorded_response::Status`). -/
inductive GladiaStatus
  | queued
  | processing
  | done
  | error
deriving DecidableEq, Repr

/-- Gladia word (`WordDto`); times in seconds. -/
structure WordDto where
  word : String
  start : Rat
  end_ : Rat
  confidence : Rat
deriving DecidableEq, Repr

/-- Gladia utterance (`UtteranceDto`); times in seconds. -/
structure UtteranceDto where
  text : String
  start : Rat
  end_ : Rat
  confidence : Rat
  speaker : Option Int
  words : List WordDto
deriving DecidableEq, Repr

/-- Gladia summarization sub-result (the `summarization` field read by
`extract_summary`). -/
structure SummarizationDto where
  results : String
deriving DecidableEq, Repr

/-- Gladia result metadata (only `audio_duration` is read). -/
structure GladiaMetadataDto where
  audio_duration : Rat
deriving DecidableEq, Repr

/-- Gladia transcription payload (`TranscriptionDto`). `languages` keeps the
debug rendering of each language enum value. -/
structure TranscriptionDto where
  full_transcript : String
  languages : List String
  utterances : List UtteranceDto
deriving DecidableEq, Repr

/-- Gladia result (`TranscriptionResultDto`). -/
structure TranscriptionResultDto where
  transcription : Option TranscriptionDto
  summarization : Option SummarizationDto
  metadata : GladiaMetadataDto
deriving DecidableEq, Repr

/-- Gladia pre-recorded job response (`PreRecordedResponse`). -/
structure PreRecordedResponse where
  id : String
  status : GladiaStatus
  error_code : Option Int
  result : Option TranscriptionResultDto
  custom_metadata : Option (List (String × String))
  created_at : String
  completed_at : Option String
deriving DecidableEq, Repr

/-- Gladia streaming-session init response (id and WebSocket URL). -/
structure GladiaInitStreamingResponse where
  id : String
  url : String
deriving DecidableEq, Repr

/-- Deepgram channel word (`...ChannelsInnerAlternativesInnerWordsInner`). -/
structure DgChannelWord where
  word : Option String
  start : Option Rat
  end_ : Option Rat
  confidence : Option Rat
deriving DecidableEq, Repr

/-- Deepgram utterance word (carries an optional speaker number). -/
structure DgUtteranceWord where
  word : Option String
  start : Option Rat
  end_ : Option Rat
  confidence : Option Rat
  speaker : Option Int
deriving DecidableEq, Repr

/-- Deepgram channel alternative. -/
structure DgAlternative where
  transcript : Option String
  confidence : Option Rat
  words : Option (List DgChannelWord)
deriving DecidableEq, Repr

/-- Deepgram channel. -/
structure DgChannel where
  alternatives : Option (List DgAlternative)
  detected_language : Option String
deriving DecidableEq, Repr

/-- Deepgram utterance (`ListenV1ResponseResultsUtterancesInner`). -/
structure DgUtterance where
  transcript : Option String
  start : Option Rat
  end_ : Option Rat
  confidence : Option Rat
  speaker : Option Int
  words : Option (List DgUtteranceWord)
deriving DecidableEq, Repr

/-- Deepgram summary block. -/
structure DgSummary where
  short : Option String
deriving DecidableEq, Repr

/-- Deepgram results block. -/
structure DgResults where
  channels : List DgChannel
  utterances : Option (List DgUtterance)
  summary : Option DgSummary
deriving DecidableEq, Repr

/-- Deepgram response metadata. -/
structure DgMetadata where
  request_id : String
  duration : Rat
  created : String
deriving DecidableEq, Repr

/-- Deepgram synchronous response (`ListenV1Response`). -/
structure ListenV1Response where
  metadata : DgMetadata
  results : DgResults
deriving DecidableEq, Repr

/-- Deepgram accepted (callback) response (`ListenV1AcceptedResponse`). -/
structure DgAccepted where
  request_id : String
deriving DecidableEq, Repr

/-- The serialized vendor payload stored in a response's `raw` field
(the source stores `serde_json::to_value(&response)`). -/
inductive RawValue
  | aaiTranscript (t : AaiTranscript)
  | gladiaPreRecorded (r : PreRecordedResponse)
  | deepgramResponse (r : ListenV1Response)
  | deepgramAccepted (a : DgAccepted)
deriving DecidableEq, Repr

/-- Unified transcription response (`UnifiedTranscriptResponse`). -/
structure UnifiedTranscriptResponse where
  success : Bool
  provider : TranscriptionProvider
  data : Option TranscriptionData
  error : Option TranscriptionError
  raw : Option RawValue
deriving DecidableEq, Repr

/-! ## Streaming utilities (`adapters/streaming.rs`) -/

namespace streaming

/-- Audio encoding formats for streaming (`streaming.rs`'s own
`AudioEncoding` enum, distinct from the table module's enum). -/
inductive AudioEncoding
  | pcm16
  | mulaw
  | alaw
  | opus
  | flac
  | mp3
deriving DecidableEq, Repr

/-- `AudioEncoding::to_deepgram`. -/
def AudioEncoding.to_deepgram : AudioEncoding → String
  | .pcm16 => "linear16"
  | .mulaw => "mulaw"
  | .alaw => "alaw"
  | .opus => "opus"
  | .flac => "flac"
  | .mp3 => "mp3"

/-- `AudioEncoding::to_assemblyai`: the wildcard arm silently defaults every
encoding outside pcm16/mulaw/alaw to the PCM token. -/
def AudioEncoding.to_assemblyai : AudioEncoding → String
  | .pcm16 => "pcm_s16le"
  | .mulaw => "pcm_mulaw"
  | .alaw => "pcm_alaw"
  | _ => "pcm_s16le"

/-- `AudioEncoding::to_gladia`: the wildcard arm silently defaults every
encoding outside pcm16/mulaw/alaw to the PCM token. -/
def AudioEncoding.to_gladia : AudioEncoding → String
  | .pcm16 => "wav/pcm"
  | .mulaw => "wav/mulaw"
  | .alaw => "wav/alaw"
  | _ => "wav/pcm"

/-- `AudioEncoding::from_str` (the input is already lowercased by the
caller path; the source lowercases first, embedded here directly). -/
def AudioEncoding.fromStr (s : String) : Option AudioEncoding :=
  match s.toLower with
  | "linear16" | "pcm_s16le" | "pcm16" | "pcm" | "wav/pcm" => some .pcm16
  | "mulaw" | "pcm_mulaw" | "wav/mulaw" => some .mulaw
  | "alaw" | "pcm_alaw" | "wav/alaw" => some .alaw
  | "opus" => some .opus
  | "flac" => some .flac
  | "mp3" => some .mp3
  | _ => none

/-- Audio buffer state (`AudioBuffer`): buffered bytes plus the
(min_bytes, max_bytes) policy. Bytes are embedded as `Nat` values. -/
structure AudioBuffer where
  buffer : List Nat
  min_bytes : Nat
  max_bytes : Nat
deriving DecidableEq, Repr

/-- `AudioBuffer::new`. -/
def AudioBuffer.new (min_bytes max_bytes : Nat) : AudioBuffer :=
  { buffer := [], min_bytes := min_bytes, max_bytes := max_bytes }

/-- `AudioBuffer::for_assemblyai`: 50ms-1000ms at 16kHz 16-bit mono. -/
def AudioBuffer.for_assemblyai : AudioBuffer :=
  AudioBuffer.new 1600 32000

/-- The `while self.buffer.len() >= self.max_bytes` drain loop of
`AudioBuffer::add`: repeatedly slice exactly `maxBytes` off the front,
returning the chunks and the remainder. The `0 < maxBytes` guard is an
embedding artifact: with `max_bytes = 0` the Rust loop never terminates,
and every buffer in the source has `max_bytes = 32000`. -/
def drainChunks (maxBytes : Nat) (buf : List Nat) : List (List Nat) × List Nat :=
  if _h : 0 < maxBytes ∧ maxBytes ≤ buf.length then
    let rest := drainChunks maxBytes (buf.drop maxBytes)
    (buf.take maxBytes :: rest.1, rest.2)
  else
    ([], buf)
termination_by buf.length
decreasing_by
  simp only [List.length_drop]
  omega

/-- `AudioBuffer::add`: append the data, then drain full chunks. -/
def AudioBuffer.add (b : AudioBuffer) (data : List Nat) :
    AudioBuffer × List (List Nat) :=
  let extended := b.buffer ++ data
  let drained := drainChunks b.max_bytes extended
  ({ b with buffer := drained.2 }, drained.1)

/-- `AudioBuffer::flush`: return all buffered bytes (best effort, also below
`min_bytes`), or none when the buffer is empty. The three source branches
are kept. -/
def AudioBuffer.flush (b : AudioBuffer) : AudioBuffer × Option (List Nat) :=
  if b.buffer.length ≥ b.min_bytes then
    ({ b with buffer := [] }, some b.buffer)
  else if b.buffer ≠ [] then
    ({ b with buffer := [] }, some b.buffer)
  else
    (b, none)

/-- `error_event`. -/
def error_event (code : String) (message : String) : StreamEvent :=
  { event_type := .error, text := none, is_final := none, utterance := none,
    words := none, speaker := none, confidence := none,
    error := some { code := code, message := message, details := none,
                    status_code := none },
    data := none }

/-- `open_event`. -/
def open_event : StreamEvent :=
  { event_type := .open_, text := none, is_final := none, utterance := none,
    words := none, speaker := none, confidence := none, error := none,
    data := none }

/-- `close_event`. -/
def close_event : StreamEvent :=
  { event_type := .close, text := none, is_final := none, utterance := none,
    words := none, speaker := none, confidence := none, error := none,
    data := none }

end streaming

/-! ## Audio encoding table (`audio_encoding.rs`) -/

/-- Unified audio encoding formats (`audio_encoding.rs`'s `AudioEncoding`). -/
inductive AudioEncoding
  | linear16
  | mulaw
  | alaw
  | flac
  | opus
  | speex
  | amrNb
  | amrWb
  | g729
deriving DecidableEq, Repr

/-- `AudioEncoding::as_str`. -/
def AudioEncoding.as_str : AudioEncoding → String
  | .linear16 => "linear16"
  | .mulaw => "mulaw"
  | .alaw => "alaw"
  | .flac => "flac"
  | .opus => "opus"
  | .speex => "speex"
  | .amrNb => "amr-nb"
  | .amrWb => "amr-wb"
  | .g729 => "g729"

/-- Debug rendering of an `AudioEncoding` value, as produced by Rust's
derived `Debug` in the error message. -/
def AudioEncoding.debugName : AudioEncoding → String
  | .linear16 => "Linear16"
  | .mulaw => "Mulaw"
  | .alaw => "Alaw"
  | .flac => "Flac"
  | .opus => "Opus"
  | .speex => "Speex"
  | .amrNb => "AmrNb"
  | .amrWb => "AmrWb"
  | .g729 => "G729"

/-- Provider type for encoding mapping (`audio_encoding.rs`'s
`StreamingProvider`). -/
inductive StreamingProvider
  | gladia
  | deepgram
  | assemblyAI
deriving DecidableEq, Repr

/-- Debug rendering of a `StreamingProvider` value. -/
def StreamingProvider.debugName : StreamingProvider → String
  | .gladia => "Gladia"
  | .deepgram => "Deepgram"
  | .assemblyAI => "AssemblyAI"

/-- `map_to_gladia`. -/
def map_to_gladia : AudioEncoding → Option String
  | .linear16 => some "wav/pcm"
  | .mulaw => some "wav/ulaw"
  | .alaw => some "wav/alaw"
  | _ => none

/-- `map_to_deepgram`. -/
def map_to_deepgram : AudioEncoding → Option String
  | .linear16 => some "linear16"
  | .mulaw => some "mulaw"
  | .flac => some "flac"
  | .opus => some "opus"
  | .speex => some "speex"
  | .amrNb => some "amr-nb"
  | .amrWb => some "amr-wb"
  | .g729 => some "g729"
  | _ => none

/-- `map_to_assemblyai`. -/
def map_to_assemblyai : AudioEncoding → Option String
  | .linear16 => some "pcm_s16le"
  | .mulaw => some "pcm_mulaw"
  | .alaw => some "pcm_alaw"
  | _ => none

/-- The supported-encodings string listed in the unsupported-encoding
error message, per provider (string literals of the source). -/
def supportedListing : StreamingProvider → String
  | .gladia => "linear16, mulaw, alaw"
  | .deepgram => "linear16, mulaw, flac, opus, speex, amr-nb, amr-wb, g729"
  | .assemblyAI => "linear16, mulaw, alaw"

/-- The unsupported-encoding error message built by
`map_encoding_to_provider` (the `format!` call of the source). -/
def unsupportedEncodingMsg (encoding : AudioEncoding)
    (provider : StreamingProvider) : String :=
  "Encoding " ++ squo ++ encoding.debugName ++ squo ++
    " is not supported by " ++ provider.debugName ++
    ". Supported encodings: " ++ supportedListing provider

/-- `map_encoding_to_provider`. -/
def map_encoding_to_provider (encoding : AudioEncoding)
    (provider : StreamingProvider) : Except String String :=
  let result := match provider with
    | .gladia => map_to_gladia encoding
    | .deepgram => map_to_deepgram encoding
    | .assemblyAI => map_to_assemblyai encoding
  match result with
  | some token => .ok token
  | none => .error (unsupportedEncodingMsg encoding provider)

/-- Each vendor's declared support table as a set of canonical encodings,
read off the per-vendor mapping tables' `Some` rows (and matching the
module's doc comments). -/
def declaredSupport : StreamingProvider → List AudioEncoding
  | .gladia => [.linear16, .mulaw, .alaw]
  | .deepgram => [.linear16, .mulaw, .flac, .opus, .speex, .amrNb, .amrWb, .g729]
  | .assemblyAI => [.linear16, .mulaw, .alaw]

/-! ## Adapter infrastructure (`adapters/mod.rs`) -/

/-- Adapter error types (`AdapterError`). `HttpError` and
`SerializationError` keep only the message of the wrapped error. -/
inductive AdapterError
  | httpError (msg : String)
  | webSocketError (msg : String)
  | serializationError (msg : String)
  | providerError (code : String) (message : String)
  | notInitialized
  | notSupported (msg : String)
  | invalidConfig (msg : String)
deriving DecidableEq, Repr

/-- Provider configuration (`ProviderConfig`). -/
structure ProviderConfig where
  api_key : String
  base_url : Option String
  timeout_ms : Option Nat
  headers : Option (List (String × String))
deriving DecidableEq, Repr

/-- Generated-client configuration: the base path plus the credential the
adapter installs (AssemblyAI/Gladia `api_key.key`, Deepgram
`bearer_access_token`). -/
structure Configuration where
  base_path : String
  credential : String
deriving DecidableEq, Repr

/-- Audio input for transcription (`AudioInput`). The live-stream receiver
is opaque to batch transcription, which only pattern-matches on it. -/
inductive AudioInput
  | url (u : String)
  | bytes (data : List Nat) (filename : Option String)
  | stream
deriving DecidableEq, Repr

/-- Common transcription options (`TranscribeOptions`). -/
structure TranscribeOptions where
  language : Option String := none
  language_detection : Option Bool := none
  diarization : Option Bool := none
  speakers_expected : Option Nat := none
  word_timestamps : Option Bool := none
  custom_vocabulary : Option (List String) := none
  summarization : Option Bool := none
  sentiment_analysis : Option Bool := none
  entity_detection : Option Bool := none
  pii_redaction : Option Bool := none
  webhook_url : Option String := none
  metadata : Option (List (String × String)) := none
deriving DecidableEq, Repr

/-- Options for streaming transcription (`StreamingOptions`). -/
structure StreamingOptions where
  language : Option String := none
  language_detection : Option Bool := none
  diarization : Option Bool := none
  speakers_expected : Option Nat := none
  word_timestamps : Option Bool := none
  custom_vocabulary : Option (List String) := none
  summarization : Option Bool := none
  sentiment_analysis : Option Bool := none
  entity_detection : Option Bool := none
  pii_redaction : Option Bool := none
  metadata : Option (List (String × String)) := none
  encoding : Option String := none
  sample_rate : Option Nat := none
  channels : Option Nat := none
  bit_depth : Option Nat := none
  interim_results : Option Bool := none
  endpointing : Option Nat := none
  max_silence : Option Nat := none
  model : Option String := none
deriving DecidableEq, Repr

/-- Streaming session handle (`StreamingSession`): the identifying data the
adapter returns; channels and the spawned socket task are runtime
resources outside the embedding. -/
structure StreamingSession where
  id : String
  provider : TranscriptionProvider
deriving DecidableEq, Repr

deriving instance DecidableEq for Except

/-- The observable outcome of one batch-transcription operation: its
result, the number of vendor fetch calls issued, and the number of
fixed-interval sleeps performed. -/
structure TranscribeRun where
  result : Except AdapterError UnifiedTranscriptResponse
  fetches : Nat
  sleeps : Nat
deriving DecidableEq, Repr

/-! ## AssemblyAI adapter (`adapters/assemblyai.rs`) -/

/-- AssemblyAI streaming word (the adapter's own `AssemblyAIWord`,
millisecond times). -/
structure AssemblyAIWord where
  text : String
  start : Int
  end_ : Int
  confidence : Rat
deriving DecidableEq, Repr

/-- AssemblyAI v3 streaming message (`AssemblyAIStreamMessage`). Fields of
`SessionInformation` are never read, so only a serialized payload is kept. -/
inductive AssemblyAIStreamMessage
  | begin_ (id : String) (expires_at : String)
  | turn (transcript : String) (end_of_turn : Bool)
      (end_of_turn_confidence : Rat) (words : List AssemblyAIWord)
  | termination (audio_duration_seconds : Rat) (session_duration_seconds : Rat)
  | sessionInformation (data : String)
deriving DecidableEq, Repr

/-- The deserialization outcome of one incoming AssemblyAI text frame:
the source first tries `AssemblyAIErrorMessage` (a bare `error` field),
then the tagged message type, and drops frames matching neither. -/
inductive AaiIncoming
  | errorMsg (error : String)
  | typed (m : AssemblyAIStreamMessage)
  | unparseable
deriving DecidableEq, Repr

/-- AssemblyAI request parameters (`TranscriptParams`). -/
structure TranscriptParams where
  audio_url : String
  language_detection : Option Bool := none
  speaker_labels : Option Bool := none
  speakers_expected : Option Int := none
  keyterms_prompt : Option (List String) := none
  summarization : Option Bool := none
  sentiment_analysis : Option Bool := none
  entity_detection : Option Bool := none
  redact_pii : Option Bool := none
  webhook_url : Option String := none
deriving DecidableEq, Repr

/-- AssemblyAI adapter state (`AssemblyAIAdapter`). -/
structure AssemblyAIAdapter where
  config : Option ProviderConfig
  api_config : Option Configuration
deriving DecidableEq, Repr

/-- The vendor environment an AssemblyAI batch operation runs against:
the outcome of the submit call and, per polling attempt index, the
outcome of the fetch call. -/
structure AaiEnv where
  create_transcript : TranscriptParams → Except String AaiTranscript
  get_transcript : String → Nat → Except String AaiTranscript

namespace AssemblyAIAdapter

/-- `DEFAULT_BASE_URL` of `assemblyai.rs`. -/
def DEFAULT_BASE_URL : String := "https://api.assemblyai.com"

/-- `MAX_ATTEMPTS` of `poll_for_completion`. -/
def MAX_ATTEMPTS : Nat := 120

/-- `POLL_INTERVAL_MS` of `poll_for_completion`. -/
def POLL_INTERVAL_MS : Nat := 1000

/-- `AssemblyAIAdapter::new`. -/
def new : AssemblyAIAdapter := { config := none, api_config := none }

/-- `AssemblyAIAdapter::build_api_config`. -/
def build_api_config (config : ProviderConfig) : Configuration :=
  { base_path := config.base_url.getD DEFAULT_BASE_URL,
    credential := config.api_key }

/-- `AssemblyAIAdapter::initialize`. -/
def initAdapter (_a : AssemblyAIAdapter) (config : ProviderConfig) :
    Except AdapterError AssemblyAIAdapter :=
  if config.api_key = "" then
    .error (.invalidConfig "API key is required")
  else
    .ok { api_config := some (build_api_config config), config := some config }

/-- `AssemblyAIAdapter::build_transcript_params`. -/
def build_transcript_params (audio_url : String)
    (options : Option TranscribeOptions) : TranscriptParams :=
  let params : TranscriptParams := { audio_url := audio_url }
  match options with
  | none => params
  | some opts =>
    let params := if opts.language_detection = some true then
        { params with language_detection := some true } else params
    let params := if opts.diarization = some true then
        let params := { params with speaker_labels := some true }
        match opts.speakers_expected with
        | some speakers => { params with speakers_expected := some (Int.ofNat speakers) }
        | none => params
      else params
    let params := match opts.custom_vocabulary with
      | some vocab => if vocab ≠ [] then
          { params with keyterms_prompt := some vocab } else params
      | none => params
    let params := if opts.summarization = some true then
        { params with summarization := some true } else params
    let params := if opts.sentiment_analysis = some true then
        { params with sentiment_analysis := some true } else params
    let params := if opts.entity_detection = some true then
        { params with entity_detection := some true } else params
    let params := if opts.pii_redaction = some true then
        { params with redact_pii := some true } else params
    let params := match opts.webhook_url with
      | some webhook_url => { params with webhook_url := some webhook_url }
      | none => params
    params

/-- `AssemblyAIAdapter::map_word` (millisecond to second conversion). -/
def map_word (word : TranscriptWord) : Word :=
  { text := word.text,
    start := (word.start : Rat) / 1000,
    end_ := (word.end_ : Rat) / 1000,
    confidence := some word.confidence,
    speaker := word.speaker }

/-- `AssemblyAIAdapter::map_utterance`. -/
def map_utterance (utterance : TranscriptUtterance) : Utterance :=
  { text := utterance.text,
    start := (utterance.start : Rat) / 1000,
    end_ := (utterance.end_ : Rat) / 1000,
    confidence := some utterance.confidence,
    speaker := some utterance.speaker,
    words := some (utterance.words.map map_word) }

/-- `AssemblyAIAdapter::extract_speakers`; the `HashSet` is embedded as a
dedup of the speaker tags. -/
def extract_speakers (utterances : List TranscriptUtterance) :
    Option (List Speaker) :=
  let speaker_ids := (utterances.map (·.speaker)).dedup
  if speaker_ids.isEmpty then none
  else
    some (speaker_ids.map fun id =>
      { id := id, label := some ("Speaker " ++ id), confidence := none })

/-- `AssemblyAIAdapter::parse_streaming_message`. -/
def parse_streaming_message : AaiIncoming → Option StreamEvent
  | .errorMsg err =>
    some { event_type := .error, text := none, is_final := none,
           utterance := none, words := none, speaker := none,
           confidence := none,
           error := some { code := "PROVIDER_ERROR", message := err,
                           details := none, status_code := none },
           data := none }
  | .unparseable => none
  | .typed (.begin_ id expires_at) =>
    some { event_type := .metadata,
           text := some ("\x7b\"id\":\"" ++ id ++ "\",\"expires_at\":\"" ++
             expires_at ++ "\"\x7d"),
           is_final := none, utterance := none, words := none,
           speaker := none, confidence := none, error := none, data := none }
  | .typed (.turn transcript end_of_turn end_of_turn_confidence words) =>
    let mapped_words : List Word := words.map fun w =>
      { text := w.text, start := (w.start : Rat) / 1000,
        end_ := (w.end_ : Rat) / 1000, confidence := some w.confidence,
        speaker := none }
    some { event_type := .transcript,
           text := some transcript,
           is_final := some end_of_turn,
           utterance := none,
           words := if mapped_words.isEmpty then none else some mapped_words,
           speaker := none,
           confidence := if end_of_turn then some end_of_turn_confidence
             else none,
           error := none, data := none }
  | .typed (.termination audio_duration_seconds session_duration_seconds) =>
    some { event_type := .metadata,
           text := some ("\x7b\"audio_duration\":" ++
             toString audio_duration_seconds ++ ",\"session_duration\":" ++
             toString session_duration_seconds ++ "\x7d"),
           is_final := none, utterance := none, words := none,
           speaker := none, confidence := none, error := none, data := none }
  | .typed (.sessionInformation _) => none

/-- `AssemblyAIAdapter::normalize_response`. -/
def normalize_response (response : AaiTranscript) : UnifiedTranscriptResponse :=
  let status := match response.status with
    | .queued => TranscriptionStatus.queued
    | .processing => TranscriptionStatus.processing
    | .completed => TranscriptionStatus.completed
    | .error => TranscriptionStatus.error
  let raw := RawValue.aaiTranscript response
  if response.status = .error then
    { success := false,
      provider := .assemblyAI,
      data := none,
      error := some { code := "TRANSCRIPTION_ERROR",
                      message := response.error.getD "Transcription failed",
                      details := none, status_code := none },
      raw := some raw }
  else
    let text := response.text.join.getD ""
    let words := (response.words.join).map (·.map map_word)
    let speakers := response.utterances.join.bind extract_speakers
    let utterances := (response.utterances.join).map (·.map map_utterance)
    let summary := response.summary.join
    let confidence := response.confidence.join
    let duration := (response.audio_duration.join).map
      (fun d => (d : Rat) / 1000)
    let language := response.language_code
    { success := true,
      provider := .assemblyAI,
      data := some { id := response.id, text := text,
                     confidence := confidence, status := status,
                     language := language, duration := duration,
                     speakers := speakers, words := words,
                     utterances := utterances, summary := summary,
                     metadata := none, created_at := none,
                     completed_at := none },
      error := none,
      raw := some raw }

/-- Whether a fetched status ends the polling loop (the
`Completed | Error` arm of `poll_for_completion`). -/
def isTerminal (s : AaiStatus) : Bool :=
  match s with
  | .completed => true
  | .error => true
  | _ => false

/-- The timeout response `poll_for_completion` returns when the attempt
ceiling is exhausted. -/
def pollingTimeoutResponse : UnifiedTranscriptResponse :=
  { success := false,
    provider := .assemblyAI,
    data := none,
    error := some { code := "POLLING_TIMEOUT",
                    message := "Transcription did not complete after " ++
                      toString MAX_ATTEMPTS ++ " attempts",
                    details := none, status_code := none },
    raw := none }

/-- The `for _ in 0..MAX_ATTEMPTS` loop of `poll_for_completion`:
`attempt` is the next fetch index, `remaining` the remaining iterations.
A non-terminal fetch sleeps `POLL_INTERVAL_MS` and retries. -/
def poll_loop (env : AaiEnv) (transcript_id : String)
    (attempt remaining : Nat) : TranscribeRun :=
  match remaining with
  | 0 => { result := .ok pollingTimeoutResponse, fetches := 0, sleeps := 0 }
  | remaining' + 1 =>
    match env.get_transcript transcript_id attempt with
    | .error e =>
      { result := .error (.providerError "API_ERROR" e), fetches := 1,
        sleeps := 0 }
    | .ok response =>
      if isTerminal response.status then
        { result := .ok (normalize_response response), fetches := 1,
          sleeps := 0 }
      else
        let rest := poll_loop env transcript_id (attempt + 1) remaining'
        { result := rest.result, fetches := rest.fetches + 1,
          sleeps := rest.sleeps + 1 }

/-- `AssemblyAIAdapter::poll_for_completion`. -/
def poll_for_completion (a : AssemblyAIAdapter) (transcript_id : String)
    (env : AaiEnv) : TranscribeRun :=
  match a.api_config with
  | none => { result := .error .notInitialized, fetches := 0, sleeps := 0 }
  | some _ => poll_loop env transcript_id 0 MAX_ATTEMPTS

/-- The immediate response of the webhook branch of
`AssemblyAIAdapter::transcribe`. -/
def webhookImmediateResponse (transcript_id : String)
    (response : AaiTranscript) : UnifiedTranscriptResponse :=
  { success := true,
    provider := .assemblyAI,
    data := some { id := transcript_id, text := "", confidence := none,
                   status := .queued, language := none, duration := none,
                   speakers := none, words := none, utterances := none,
                   summary := none, metadata := none, created_at := none,
                   completed_at := none },
    error := none,
    raw := some (RawValue.aaiTranscript response) }

/-- `AssemblyAIAdapter::transcribe`. -/
def transcribe (a : AssemblyAIAdapter) (audio : AudioInput)
    (options : Option TranscribeOptions) (env : AaiEnv) : TranscribeRun :=
  match a.api_config with
  | none => { result := .error .notInitialized, fetches := 0, sleeps := 0 }
  | some _ =>
    match audio with
    | .bytes _ _ =>
      { result := .error (.notSupported
          "File upload not yet implemented - use URL input"),
        fetches := 0, sleeps := 0 }
    | .stream =>
      { result := .error (.notSupported
          "Use transcribe_stream for streaming audio"),
        fetches := 0, sleeps := 0 }
    | .url audio_url =>
      let params := build_transcript_params audio_url options
      match env.create_transcript params with
      | .error e =>
        { result := .error (.providerError "API_ERROR" e), fetches := 0,
          sleeps := 0 }
      | .ok response =>
        let transcript_id := response.id
        if (options.bind (·.webhook_url)).isSome then
          { result := .ok (webhookImmediateResponse transcript_id response),
            fetches := 0, sleeps := 0 }
        else
          poll_for_completion a transcript_id env

/-- `AssemblyAIAdapter::get_transcript`; `fetched` is the outcome of the
single vendor fetch. -/
def get_transcript (a : AssemblyAIAdapter) (_transcript_id : String)
    (fetched : Except String AaiTranscript) :
    Except AdapterError UnifiedTranscriptResponse :=
  match a.api_config with
  | none => .error .notInitialized
  | some _ =>
    match fetched with
    | .error e => .error (.providerError "API_ERROR" e)
    | .ok response => .ok (normalize_response response)

/-- `AssemblyAIAdapter::delete_transcript`; `deleted` is the outcome of
the vendor delete call. -/
def delete_transcript (a : AssemblyAIAdapter) (_transcript_id : String)
    (deleted : Except String Unit) : Except AdapterError Bool :=
  match a.api_config with
  | none => .error .notInitialized
  | some _ =>
    match deleted with
    | .error e => .error (.providerError "API_ERROR" e)
    | .ok _ => .ok true

/-- `AssemblyAIAdapter::transcribe_stream`: the `NotInitialized` guard on
`self.config`, then the session handle; the spawned WebSocket task is a
runtime resource outside the embedding. -/
def transcribe_stream (a : AssemblyAIAdapter)
    (_options : Option StreamingOptions) (session_id : String) :
    Except AdapterError StreamingSession :=
  match a.config with
  | none => .error .notInitialized
  | some _ => .ok { id := session_id, provider := .assemblyAI }

end AssemblyAIAdapter

/-! ## Gladia adapter (`adapters/gladia.rs`) -/

/-- Gladia streaming word (`GladiaStreamWord`, second times). -/
structure GladiaStreamWord where
  word : String
  start : Rat
  end_ : Rat
  confidence : Rat
deriving DecidableEq, Repr

/-- Gladia streaming utterance payload (`GladiaUtteranceInfo`). -/
structure GladiaUtteranceInfo where
  text : String
  start : Rat
  end_ : Rat
  speaker : Option Int
  confidence : Rat
  words : List GladiaStreamWord
deriving DecidableEq, Repr

/-- Gladia streaming message (`GladiaStreamMessage`). The metadata arm
keeps the serialized payload the source stringifies. -/
inductive GladiaStreamMessage
  | transcript (is_final : Bool) (utterance : GladiaUtteranceInfo)
  | utterance (utterance : GladiaUtteranceInfo)
  | metadata (data : String)
  | error (message : String)
deriving DecidableEq, Repr

/-- Gladia batch request (`InitTranscriptionRequest`), with the nested
config DTOs flattened to the fields the builder sets. -/
structure InitTranscriptionRequest where
  audio_url : String
  language_config_code_switching : Option Bool := none
  diarization : Option Bool := none
  diarization_number_of_speakers : Option Int := none
  custom_vocabulary : Option Bool := none
  custom_vocabulary_values : Option (List String) := none
  summarization : Option Bool := none
  sentiment_analysis : Option Bool := none
  named_entity_recognition : Option Bool := none
  callback : Option Bool := none
  callback_url : Option String := none
  custom_metadata : Option (List (String × String)) := none
deriving DecidableEq, Repr

/-- Gladia adapter state (`GladiaAdapter`). -/
structure GladiaAdapter where
  config : Option ProviderConfig
  api_config : Option Configuration
deriving DecidableEq, Repr

/-- The vendor environment a Gladia batch operation runs against. -/
structure GladiaEnv where
  init_job : InitTranscriptionRequest → Except String PreRecordedResponse
  get_job : String → Nat → Except String PreRecordedResponse

namespace GladiaAdapter

/-- `DEFAULT_BASE_URL` of `gladia.rs`. -/
def DEFAULT_BASE_URL : String := "https://api.gladia.io"

/-- `MAX_ATTEMPTS` of `poll_for_completion`. -/
def MAX_ATTEMPTS : Nat := 120

/-- `POLL_INTERVAL_MS` of `poll_for_completion`. -/
def POLL_INTERVAL_MS : Nat := 1000

/-- `GladiaAdapter::new`. -/
def new : GladiaAdapter := { config := none, api_config := none }

/-- `GladiaAdapter::build_api_config`. -/
def build_api_config (config : ProviderConfig) : Configuration :=
  { base_path := config.base_url.getD DEFAULT_BASE_URL,
    credential := config.api_key }

/-- `GladiaAdapter::initialize`. -/
def initAdapter (_a : GladiaAdapter) (config : ProviderConfig) :
    Except AdapterError GladiaAdapter :=
  if config.api_key = "" then
    .error (.invalidConfig "API key is required")
  else
    .ok { api_config := some (build_api_config config), config := some config }

/-- `GladiaAdapter::build_transcription_request`. -/
def build_transcription_request (audio_url : String)
    (options : Option TranscribeOptions) : InitTranscriptionRequest :=
  let request : InitTranscriptionRequest := { audio_url := audio_url }
  match options with
  | none => request
  | some opts =>
    let request :=
      if opts.language.isSome ∨ opts.language_detection.isSome then
        if opts.language_detection = some true then
          { request with language_config_code_switching := some true }
        else request
      else request
    let request := if opts.diarization = some true then
        let request := { request with diarization := some true }
        match opts.speakers_expected with
        | some speakers =>
          { request with
              diarization_number_of_speakers := some (Int.ofNat speakers) }
        | none => request
      else request
    let request := match opts.custom_vocabulary with
      | some vocab => if vocab ≠ [] then
          { request with custom_vocabulary := some true,
                         custom_vocabulary_values := some vocab }
        else request
      | none => request
    let request := if opts.summarization = some true then
        { request with summarization := some true } else request
    let request := if opts.sentiment_analysis = some true then
        { request with sentiment_analysis := some true } else request
    let request := if opts.entity_detection = some true then
        { request with named_entity_recognition := some true } else request
    let request := match opts.webhook_url with
      | some webhook_url =>
        { request with callback := some true, callback_url := some webhook_url }
      | none => request
    let request := match opts.metadata with
      | some metadata => { request with custom_metadata := some metadata }
      | none => request
    request

/-- `GladiaAdapter::map_word`. -/
def map_word (word : WordDto) : Word :=
  { text := word.word, start := word.start, end_ := word.end_,
    confidence := some word.confidence, speaker := none }

/-- `GladiaAdapter::map_utterance`. -/
def map_utterance (utterance : UtteranceDto) : Utterance :=
  { text := utterance.text, start := utterance.start, end_ := utterance.end_,
    confidence := some utterance.confidence,
    speaker := utterance.speaker.map toString,
    words := some (utterance.words.map map_word) }

/-- `GladiaAdapter::extract_speakers`; the `HashSet` is embedded as a
dedup of the present speaker tags. -/
def extract_speakers (transcription : TranscriptionDto) :
    Option (List Speaker) :=
  let speaker_ids := (transcription.utterances.filterMap (·.speaker)).dedup
  if speaker_ids.isEmpty then none
  else
    some (speaker_ids.map fun id =>
      { id := toString id, label := some ("Speaker " ++ toString id),
        confidence := none })

/-- `GladiaAdapter::extract_words`. -/
def extract_words (transcription : TranscriptionDto) : Option (List Word) :=
  let words := transcription.utterances.flatMap fun u =>
    let speaker := u.speaker.map toString
    u.words.map fun w =>
      { text := w.word, start := w.start, end_ := w.end_,
        confidence := some w.confidence, speaker := speaker }
  if words.isEmpty then none else some words

/-- `GladiaAdapter::extract_summary`. -/
def extract_summary (result : TranscriptionResultDto) : Option String :=
  result.summarization.map (·.results)

/-- Map a Gladia streaming word, attaching the enclosing utterance's
speaker tag (the closure inside `parse_streaming_message`). -/
def stream_word (speaker : Option Int) (w : GladiaStreamWord) : Word :=
  { text := w.word, start := w.start, end_ := w.end_,
    confidence := some w.confidence, speaker := speaker.map toString }

/-- `GladiaAdapter::parse_streaming_message`. -/
def parse_streaming_message : Option GladiaStreamMessage → Option StreamEvent
  | none => none
  | some (.transcript is_final utterance) =>
    let words : List Word := utterance.words.map (stream_word utterance.speaker)
    some { event_type := .transcript,
           text := some utterance.text,
           is_final := some is_final,
           utterance := none,
           words := if words.isEmpty then none else some words,
           speaker := utterance.speaker.map toString,
           confidence := some utterance.confidence,
           error := none, data := none }
  | some (.utterance utterance) =>
    let words : List Word := utterance.words.map (stream_word utterance.speaker)
    some { event_type := .utterance,
           text := some utterance.text,
           is_final := some true,
           utterance := some
             { text := utterance.text, start := utterance.start,
               end_ := utterance.end_,
               speaker := utterance.speaker.map toString,
               confidence := some utterance.confidence,
               words := if words.isEmpty then none else some words },
           words := none,
           speaker := utterance.speaker.map toString,
           confidence := some utterance.confidence,
           error := none, data := none }
  | some (.metadata data) =>
    some { event_type := .metadata, text := some data, is_final := none,
           utterance := none, words := none, speaker := none,
           confidence := none, error := none, data := none }
  | some (.error message) =>
    some { event_type := .error, text := none, is_final := none,
           utterance := none, words := none, speaker := none,
           confidence := none,
           error := some { code := "PROVIDER_ERROR", message := message,
                           details := none, status_code := none },
           data := none }

/-- `GladiaAdapter::normalize_response`. The `as u16` cast of the error
code takes the low 16 bits. -/
def normalize_response (response : PreRecordedResponse) :
    UnifiedTranscriptResponse :=
  let status := match response.status with
    | .queued => TranscriptionStatus.queued
    | .processing => TranscriptionStatus.processing
    | .done => TranscriptionStatus.completed
    | .error => TranscriptionStatus.error
  if response.status = .error then
    { success := false,
      provider := .gladia,
      data := none,
      error := some { code := "TRANSCRIPTION_ERROR",
                      message := "Transcription failed",
                      details := none,
                      status_code := response.error_code.map
                        (fun c => (c % 65536).toNat) },
      raw := some (RawValue.gladiaPreRecorded response) }
  else
    let extracted := match response.result with
      | some result =>
        match result.transcription with
        | some transcription =>
          (transcription.full_transcript,
           transcription.languages.head?,
           extract_speakers transcription,
           extract_words transcription,
           some (transcription.utterances.map map_utterance),
           extract_summary result,
           some result.metadata.audio_duration)
        | none =>
          ("", none, none, none, none, none, some result.metadata.audio_duration)
      | none => ("", none, none, none, none, none, none)
    { success := true,
      provider := .gladia,
      data := some { id := response.id,
                     text := extracted.1,
                     confidence := none,
                     status := status,
                     language := extracted.2.1,
                     duration := extracted.2.2.2.2.2.2,
                     speakers := extracted.2.2.1,
                     words := extracted.2.2.2.1,
                     utterances := extracted.2.2.2.2.1,
                     summary := extracted.2.2.2.2.2.1,
                     metadata := response.custom_metadata,
                     created_at := some response.created_at,
                     completed_at := response.completed_at },
      error := none,
      raw := some (RawValue.gladiaPreRecorded response) }

/-- Whether a fetched status ends the polling loop (the `Done | Error`
arm of `poll_for_completion`). -/
def isTerminal (s : GladiaStatus) : Bool :=
  match s with
  | .done => true
  | .error => true
  | _ => false

/-- The timeout response `poll_for_completion` returns when the attempt
ceiling is exhausted. -/
def pollingTimeoutResponse : UnifiedTranscriptResponse :=
  { success := false,
    provider := .gladia,
    data := none,
    error := some { code := "POLLING_TIMEOUT",
                    message := "Transcription did not complete after " ++
                      toString MAX_ATTEMPTS ++ " attempts",
                    details := none, status_code := none },
    raw := none }

/-- The `for _ in 0..MAX_ATTEMPTS` loop of `poll_for_completion`. -/
def poll_loop (env : GladiaEnv) (job_id : String)
    (attempt remaining : Nat) : TranscribeRun :=
  match remaining with
  | 0 => { result := .ok pollingTimeoutResponse, fetches := 0, sleeps := 0 }
  | remaining' + 1 =>
    match env.get_job job_id attempt with
    | .error e =>
      { result := .error (.providerError "API_ERROR" e), fetches := 1,
        sleeps := 0 }
    | .ok response =>
      if isTerminal response.status then
        { result := .ok (normalize_response response), fetches := 1,
          sleeps := 0 }
      else
        let rest := poll_loop env job_id (attempt + 1) remaining'
        { result := rest.result, fetches := rest.fetches + 1,
          sleeps := rest.sleeps + 1 }

/-- `GladiaAdapter::poll_for_completion`. -/
def poll_for_completion (a : GladiaAdapter) (job_id : String)
    (env : GladiaEnv) : TranscribeRun :=
  match a.api_config with
  | none => { result := .error .notInitialized, fetches := 0, sleeps := 0 }
  | some _ => poll_loop env job_id 0 MAX_ATTEMPTS

/-- The immediate response of the webhook branch of
`GladiaAdapter::transcribe`. -/
def webhookImmediateResponse (job_id : String)
    (response : PreRecordedResponse) : UnifiedTranscriptResponse :=
  { success := true,
    provider := .gladia,
    data := some { id := job_id, text := "", confidence := none,
                   status := .queued, language := none, duration := none,
                   speakers := none, words := none, utterances := none,
                   summary := none, metadata := none, created_at := none,
                   completed_at := none },
    error := none,
    raw := some (RawValue.gladiaPreRecorded response) }

/-- `GladiaAdapter::transcribe`. -/
def transcribe (a : GladiaAdapter) (audio : AudioInput)
    (options : Option TranscribeOptions) (env : GladiaEnv) : TranscribeRun :=
  match a.api_config with
  | none => { result := .error .notInitialized, fetches := 0, sleeps := 0 }
  | some _ =>
    match audio with
    | .bytes _ _ =>
      { result := .error (.notSupported
          "File upload not yet implemented - use URL input"),
        fetches := 0, sleeps := 0 }
    | .stream =>
      { result := .error (.notSupported
          "Use transcribe_stream for streaming audio"),
        fetches := 0, sleeps := 0 }
    | .url audio_url =>
      let request := build_transcription_request audio_url options
      match env.init_job request with
      | .error e =>
        { result := .error (.providerError "API_ERROR" e), fetches := 0,
          sleeps := 0 }
      | .ok response =>
        let job_id := response.id
        if (options.bind (·.webhook_url)).isSome then
          { result := .ok (webhookImmediateResponse job_id response),
            fetches := 0, sleeps := 0 }
        else
          poll_for_completion a job_id env

/-- `GladiaAdapter::get_transcript`. -/
def get_transcript (a : GladiaAdapter) (_transcript_id : String)
    (fetched : Except String PreRecordedResponse) :
    Except AdapterError UnifiedTranscriptResponse :=
  match a.api_config with
  | none => .error .notInitialized
  | some _ =>
    match fetched with
    | .error e => .error (.providerError "API_ERROR" e)
    | .ok response => .ok (normalize_response response)

/-- `GladiaAdapter::delete_transcript`. -/
def delete_transcript (a : GladiaAdapter) (_transcript_id : String)
    (deleted : Except String Unit) : Except AdapterError Bool :=
  match a.api_config with
  | none => .error .notInitialized
  | some _ =>
    match deleted with
    | .error e => .error (.providerError "API_ERROR" e)
    | .ok _ => .ok true

/-- `GladiaAdapter::transcribe_stream`: the `NotInitialized` guard on
`self.api_config`, then the REST session-init call; the spawned
WebSocket task is a runtime resource outside the embedding. -/
def transcribe_stream (a : GladiaAdapter) (_options : Option StreamingOptions)
    (init_result : Except String GladiaInitStreamingResponse) :
    Except AdapterError StreamingSession :=
  match a.api_config with
  | none => .error .notInitialized
  | some _ =>
    match init_result with
    | .error e => .error (.providerError "API_ERROR" e)
    | .ok init_response => .ok { id := init_response.id, provider := .gladia }

end GladiaAdapter

/-! ## Deepgram adapter (`adapters/deepgram.rs`) -/

/-- Deepgram streaming word (`DeepgramWord`, second times). -/
structure DeepgramWord where
  word : String
  start : Rat
  end_ : Rat
  confidence : Rat
  speaker : Option Int
deriving DecidableEq, Repr

/-- Deepgram streaming alternative (`DeepgramAlternative`). -/
structure DeepgramAlternative where
  transcript : String
  confidence : Rat
  words : Option (List DeepgramWord)
deriving DecidableEq, Repr

/-- Deepgram streaming channel (`DeepgramChannel`). -/
structure DeepgramChannel where
  alternatives : List DeepgramAlternative
deriving DecidableEq, Repr

/-- Deepgram streaming message (`DeepgramStreamMessage`). -/
inductive DeepgramStreamMessage
  | results (is_final : Bool) (channel : DeepgramChannel)
  | utteranceEnd
  | metadata (data : String)
deriving DecidableEq, Repr

/-- The two shapes of a Deepgram transcription response
(`ListenV1MediaTranscribe200Response`). -/
inductive DgTranscribeResponse
  | response (r : ListenV1Response)
  | accepted (a : DgAccepted)
deriving DecidableEq, Repr

/-- Deepgram adapter state (`DeepgramAdapter`). -/
structure DeepgramAdapter where
  config : Option ProviderConfig
  api_config : Option Configuration
deriving DecidableEq, Repr

/-- The request data `DeepgramAdapter::transcribe` extracts from the
unified options and passes to the generated `listen_v1_media_transcribe`
call (only the parameters the adapter sets). -/
structure DgRequest where
  audio_url : String
  callback : Option String
  sentiment : Option Bool
  summarize : Option Bool
  detect_entities : Option Bool
  detect_language : Option Bool
  diarize : Option Bool
  keyterm : Option (List String)
  language : Option String
  punctuate : Option Bool
  utterances : Option Bool
deriving DecidableEq, Repr

/-- The vendor environment a Deepgram transcription runs against. -/
structure DgEnv where
  listen : DgRequest → Except String DgTranscribeResponse

namespace DeepgramAdapter

/-- `DEFAULT_BASE_URL` of `deepgram.rs`. -/
def DEFAULT_BASE_URL : String := "https://api.deepgram.com"

/-- `DeepgramAdapter::new`. -/
def new : DeepgramAdapter := { config := none, api_config := none }

/-- `DeepgramAdapter::build_api_config`. -/
def build_api_config (config : ProviderConfig) : Configuration :=
  { base_path := config.base_url.getD DEFAULT_BASE_URL,
    credential := config.api_key }

/-- `DeepgramAdapter::initialize`. -/
def initAdapter (_a : DeepgramAdapter) (config : ProviderConfig) :
    Except AdapterError DeepgramAdapter :=
  if config.api_key = "" then
    .error (.invalidConfig "API key is required")
  else
    .ok { api_config := some (build_api_config config), config := some config }

/-- `DeepgramAdapter::map_word` (channel words carry no speaker). -/
def map_word (word : DgChannelWord) : Word :=
  { text := word.word.getD "",
    start := word.start.getD 0,
    end_ := word.end_.getD 0,
    confidence := word.confidence,
    speaker := none }

/-- `DeepgramAdapter::map_utterance`. -/
def map_utterance (utterance : DgUtterance) : Utterance :=
  let words := utterance.words.map fun ws =>
    ws.map fun word =>
      { text := word.word.getD "",
        start := word.start.getD 0,
        end_ := word.end_.getD 0,
        confidence := word.confidence,
        speaker := word.speaker.map toString }
  { text := utterance.transcript.getD "",
    start := utterance.start.getD 0,
    end_ := utterance.end_.getD 0,
    confidence := utterance.confidence,
    speaker := utterance.speaker.map toString,
    words := words }

/-- `DeepgramAdapter::parse_streaming_message`. The input is the
deserialization outcome of the incoming text frame (`none` when serde
fails, in which case the frame is dropped). -/
def parse_streaming_message : Option DeepgramStreamMessage → Option StreamEvent
  | none => none
  | some (.results is_final channel) =>
    match channel.alternatives.head? with
    | none => none
    | some alt =>
      let words := alt.words.map fun ws =>
        ws.map fun w =>
          { text := w.word, start := w.start, end_ := w.end_,
            confidence := some w.confidence,
            speaker := w.speaker.map toString }
      some { event_type := .transcript,
             text := some alt.transcript,
             is_final := some is_final,
             utterance := none,
             words := words,
             speaker := none,
             confidence := some alt.confidence,
             error := none, data := none }
  | some .utteranceEnd =>
    some { event_type := .utterance, text := none, is_final := some true,
           utterance := none, words := none, speaker := none,
           confidence := none, error := none, data := none }
  | some (.metadata data) =>
    some { event_type := .metadata, text := some data, is_final := none,
           utterance := none, words := none, speaker := none,
           confidence := none, error := none, data := none }

/-- Consecutive-duplicate removal, as Rust's `Vec::dedup` (applied to a
sorted vector in `normalize_response`). -/
def dedupConsecutive : List String → List String
  | [] => []
  | [a] => [a]
  | a :: b :: rest =>
    if a = b then dedupConsecutive (b :: rest)
    else a :: dedupConsecutive (b :: rest)

/-- `DeepgramAdapter::normalize_response`. -/
def normalize_response (response : ListenV1Response) :
    UnifiedTranscriptResponse :=
  let text := ((response.results.channels.head?.bind (·.alternatives)).bind
    (·.head?)).map (fun a => a.transcript.getD "") |>.getD ""
  let words := ((response.results.channels.head?.bind (·.alternatives)).bind
    (·.head?)).bind (·.words) |>.map (·.map map_word)
  let utterances := response.results.utterances.map (·.map map_utterance)
  let speakers := utterances.map fun utts =>
    let speaker_ids := (utts.filterMap (·.speaker)).mergeSort
      (fun a b => decide (a ≤ b))
    let speaker_ids := dedupConsecutive speaker_ids
    speaker_ids.map fun id =>
      { id := id, label := some ("Speaker " ++ id), confidence := none }
  let summary := response.results.summary.map fun s => s.short.getD ""
  let duration := some response.metadata.duration
  let language := response.results.channels.head?.bind (·.detected_language)
  { success := true,
    provider := .deepgram,
    data := some { id := response.metadata.request_id,
                   text := text,
                   confidence := ((response.results.channels.head?.bind
                     (·.alternatives)).bind (·.head?)).bind (·.confidence),
                   status := .completed,
                   language := language,
                   duration := duration,
                   speakers := speakers,
                   words := words,
                   utterances := utterances,
                   summary := summary,
                   metadata := none,
                   created_at := some response.metadata.created,
                   completed_at := none },
    error := none,
    raw := some (RawValue.deepgramResponse response) }

/-- The immediate response of the accepted (callback) branch of
`DeepgramAdapter::transcribe`. -/
def acceptedImmediateResponse (accepted : DgAccepted) :
    UnifiedTranscriptResponse :=
  { success := true,
    provider := .deepgram,
    data := some { id := accepted.request_id, text := "", confidence := none,
                   status := .processing, language := none, duration := none,
                   speakers := none, words := none, utterances := none,
                   summary := none, metadata := none, created_at := none,
                   completed_at := none },
    error := none,
    raw := some (RawValue.deepgramAccepted accepted) }

/-- The request-parameter extraction of `DeepgramAdapter::transcribe`. -/
def build_request (audio_url : String) (options : Option TranscribeOptions) :
    DgRequest :=
  let diarize := options.bind (·.diarization)
  { audio_url := audio_url,
    callback := options.bind (·.webhook_url),
    sentiment := options.bind (·.sentiment_analysis),
    summarize := options.bind (·.summarization),
    detect_entities := options.bind (·.entity_detection),
    detect_language := options.bind (·.language_detection),
    diarize := diarize,
    keyterm := options.bind (·.custom_vocabulary),
    language := options.bind (·.language),
    punctuate := some true,
    utterances := diarize }

/-- `DeepgramAdapter::transcribe` (synchronous; Deepgram never polls, so
`fetches` and `sleeps` are always 0). -/
def transcribe (a : DeepgramAdapter) (audio : AudioInput)
    (options : Option TranscribeOptions) (env : DgEnv) : TranscribeRun :=
  match a.api_config with
  | none => { result := .error .notInitialized, fetches := 0, sleeps := 0 }
  | some _ =>
    match audio with
    | .bytes _ _ =>
      { result := .error (.notSupported
          "File upload not yet implemented - use URL input"),
        fetches := 0, sleeps := 0 }
    | .stream =>
      { result := .error (.notSupported
          "Use transcribe_stream for streaming audio"),
        fetches := 0, sleeps := 0 }
    | .url audio_url =>
      match env.listen (build_request audio_url options) with
      | .error e =>
        { result := .error (.providerError "API_ERROR" e), fetches := 0,
          sleeps := 0 }
      | .ok (.response resp) =>
        { result := .ok (normalize_response resp), fetches := 0, sleeps := 0 }
      | .ok (.accepted accepted) =>
        { result := .ok (acceptedImmediateResponse accepted), fetches := 0,
          sleeps := 0 }

/-- `DeepgramAdapter::get_transcript`: unconditionally `NotSupported`,
with no initialization check. -/
def get_transcript (_a : DeepgramAdapter) (_transcript_id : String) :
    Except AdapterError UnifiedTranscriptResponse :=
  .error (.notSupported
    "Deepgram returns results synchronously - use transcribe() instead")

/-- `DeepgramAdapter`'s `delete_transcript` is the trait's default
implementation (`adapters/mod.rs`): unconditionally `NotSupported`. -/
def delete_transcript (_a : DeepgramAdapter) (_transcript_id : String) :
    Except AdapterError Bool :=
  .error (.notSupported "Delete not supported by this provider")

/-- `DeepgramAdapter::transcribe_stream`: the `NotInitialized` guard on
`self.config`, then the session handle. -/
def transcribe_stream (a : DeepgramAdapter)
    (_options : Option StreamingOptions) (session_id : String) :
    Except AdapterError StreamingSession :=
  match a.config with
  | none => .error .notInitialized
  | some _ => .ok { id := session_id, provider := .deepgram }

end DeepgramAdapter

/-! ## Router (`router.rs`) -/

/-- Strategy for provider selection (`SelectionStrategy`). -/
inductive SelectionStrategy
  | explicitStrategy
  | defaultStrategy
  | roundRobin
deriving DecidableEq, Repr

/-- Configuration for `VoiceRouter` (`VoiceRouterConfig`); the provider
`HashMap` is embedded as an association list in one admissible iteration
order. -/
structure VoiceRouterConfig where
  providers : List (TranscriptionProvider × ProviderConfig)
  default_provider : Option TranscriptionProvider
  selection_strategy : SelectionStrategy
deriving DecidableEq, Repr

/-- `VoiceRouter` state: the registered (successfully initialized)
adapters in iteration order, the effective configuration, and the
round-robin counter. -/
structure VoiceRouter where
  adapters : List TranscriptionProvider
  config : VoiceRouterConfig
  round_robin_index : Nat
deriving DecidableEq, Repr

namespace VoiceRouter

/-- Whether `VoiceRouter::new` has a built-in adapter for a provider and
its `initialize` succeeds (non-empty API key); other providers fall into
the not-yet-implemented arm and register nothing. -/
def registersAdapter (provider : TranscriptionProvider)
    (provider_config : ProviderConfig) : Bool :=
  match provider with
  | .gladia => provider_config.api_key ≠ ""
  | .assemblyAI => provider_config.api_key ≠ ""
  | .deepgram => provider_config.api_key ≠ ""
  | _ => false

/-- `VoiceRouter::new`. The empty-provider panic is embedded as `none`. -/
def new (config : VoiceRouterConfig) : Option VoiceRouter :=
  if config.providers.isEmpty then
    none
  else
    let effective_default :=
      if config.selection_strategy = .defaultStrategy ∧
          config.default_provider.isNone then
        (config.providers.head?.map (·.1))
      else
        config.default_provider
    some
      { adapters := (config.providers.filter
          (fun pc => registersAdapter pc.1 pc.2)).map (·.1),
        config := { config with default_provider := effective_default },
        round_robin_index := 0 }

/-- `VoiceRouter::get_registered_providers`. -/
def get_registered_providers (r : VoiceRouter) : List TranscriptionProvider :=
  r.adapters

/-- The `InvalidConfig` message for an unregistered provider, built from
the `format!` string of `select_provider`/`get_adapter`. Debug renderings
of the provider and of the registered list stand in for Rust's `{:?}`. -/
def notRegisteredMsg (provider : TranscriptionProvider)
    (registered : List TranscriptionProvider) : String :=
  "Provider " ++ squo ++ reprStr provider ++ squo ++
    " is not registered. Available providers: " ++ reprStr registered

/-- The `InvalidConfig` message of the `Explicit` strategy arm. -/
def explicitStrategyMsg : String :=
  "Provider must be explicitly specified when using " ++ squo ++
    "explicit" ++ squo ++ " selection strategy"

/-- `VoiceRouter::select_provider`. A `some` result carries the outcome
and the updated router (the round-robin arm advances the shared counter);
`none` embeds the panic of indexing an empty adapter map. -/
def select_provider (r : VoiceRouter)
    (preferred_provider : Option TranscriptionProvider) :
    Option (Except AdapterError TranscriptionProvider × VoiceRouter) :=
  match preferred_provider with
  | some provider =>
    if r.adapters.contains provider then
      some (.ok provider, r)
    else
      some (.error (.invalidConfig
        (notRegisteredMsg provider (get_registered_providers r))), r)
  | none =>
    match r.config.selection_strategy with
    | .explicitStrategy =>
      some (.error (.invalidConfig explicitStrategyMsg), r)
    | .roundRobin =>
      match r.adapters with
      | [] => none
      | p :: ps =>
        let index := r.round_robin_index
        some (.ok ((p :: ps).getD (index % (p :: ps).length) p),
              { r with round_robin_index := r.round_robin_index + 1 })
    | .defaultStrategy =>
      match r.config.default_provider with
      | some provider => some (.ok provider, r)
      | none => some (.error (.invalidConfig "No default provider configured"), r)

/-- Run `n` successive `select_provider None` calls, collecting the
outcomes; `none` if any call panics. -/
def select_seq (r : VoiceRouter) :
    Nat → Option (List (Except AdapterError TranscriptionProvider) × VoiceRouter)
  | 0 => some ([], r)
  | n + 1 =>
    match select_provider r none with
    | none => none
    | some (outcome, r') =>
      match select_seq r' n with
      | none => none
      | some (outcomes, r'') => some (outcome :: outcomes, r'')

end VoiceRouter

/-! ## General facts about the audio chunk buffer -/

namespace streaming

/-- The drain loop slices exactly `maxBytes` bytes per chunk off the
front, preserves the byte sequence, and leaves a remainder strictly
shorter than `maxBytes`. -/
theorem drainChunks_spec (maxBytes : Nat) (hm : 0 < maxBytes) :
    ∀ (n : Nat) (buf : List Nat), buf.length ≤ n →
      (∀ c ∈ (drainChunks maxBytes buf).1, c.length = maxBytes) ∧
      (drainChunks maxBytes buf).1.flatten ++ (drainChunks maxBytes buf).2 = buf ∧
      (drainChunks maxBytes buf).2.length < maxBytes := by
  intro n
  induction n with
  | zero =>
    intro buf hlen
    have hb : buf = [] := List.length_eq_zero.mp (Nat.le_zero.mp hlen)
    subst hb
    rw [drainChunks, dif_neg (by simp only [List.length_nil]; omega)]
    exact ⟨by simp, by simp, by simpa using hm⟩
  | succ n ih =>
    intro buf hlen
    rw [drainChunks]
    split
    · rename_i h
      have hdrop : (buf.drop maxBytes).length ≤ n := by
        simp only [List.length_drop]
        omega
      obtain ⟨h1, h2, h3⟩ := ih (buf.drop maxBytes) hdrop
      refine ⟨?_, ?_, h3⟩
      · intro c hc
        rcases List.mem_cons.mp hc with rfl | hc'
        · simp only [List.length_take]
          omega
        · exact h1 c hc'
      · simp only [List.flatten_cons, List.append_assoc, h2]
        exact List.take_append_drop maxBytes buf
    · rename_i h
      refine ⟨by simp, by simp, ?_⟩
      simp only
      omega

end streaming

/-- Draining 40000 bytes with a 32000-byte chunk size yields one full
chunk and an 8000-byte remainder. -/
theorem drainChunks_replicate_40000 :
    streaming.drainChunks 32000 (List.replicate 40000 (0 : Nat)) =
      ([List.replicate 32000 0], List.replicate 8000 0) := by
  rw [streaming.drainChunks,
    dif_pos ⟨by norm_num, by rw [List.length_replicate]; norm_num⟩]
  simp only [List.take_replicate, List.drop_replicate]
  norm_num
  rw [streaming.drainChunks,
    dif_neg (by rw [List.length_replicate]; omega)]
  exact ⟨rfl, rfl⟩

/-- Claim C6: for an `AudioBuffer(1600, 32000)`, `add` appends then slices
exactly 32000-byte chunks off the front while the buffered length allows,
leaving the remainder buffered (FIFO); 40000 bytes into an empty buffer
give one 32000-byte chunk and 8000 buffered bytes; `flush` then returns
those 8000 bytes (and in general any non-empty remainder regardless of
`min_bytes`), and `flush` on an empty buffer returns none. -/
theorem C6_audio_chunk_buffer :
    (∀ (st : streaming.AudioBuffer) (data : List Nat),
        st.max_bytes = 32000 →
        (st.add data).2.flatten ++ (st.add data).1.buffer = st.buffer ++ data ∧
        (∀ c ∈ (st.add data).2, c.length = 32000) ∧
        (st.add data).1.buffer.length < 32000 ∧
        (st.add data).1.min_bytes = st.min_bytes ∧
        (st.add data).1.max_bytes = 32000) ∧
    ((streaming.AudioBuffer.new 1600 32000).add (List.replicate 40000 0)).2 =
      [List.replicate 32000 0] ∧
    ((streaming.AudioBuffer.new 1600 32000).add
      (List.replicate 40000 0)).1.buffer = List.replicate 8000 0 ∧
    (((streaming.AudioBuffer.new 1600 32000).add
      (List.replicate 40000 0)).1.flush).2 = some (List.replicate 8000 0) ∧
    (∀ st : streaming.AudioBuffer, st.buffer ≠ [] →
        (st.flush).2 = some st.buffer ∧ (st.flush).1.buffer = []) ∧
    ((streaming.AudioBuffer.new 1600 32000).flush).2 = none := by
  refine ⟨?_, ?_, ?_, ?_, ?_, ?_⟩
  · intro st data hmax
    have hspec := streaming.drainChunks_spec 32000 (by norm_num)
      (st.buffer ++ data).length (st.buffer ++ data) le_rfl
    simp only [streaming.AudioBuffer.add, hmax]
    exact ⟨hspec.2.1, hspec.1, hspec.2.2, trivial, trivial⟩
  · simp only [streaming.AudioBuffer.add, streaming.AudioBuffer.new,
      List.nil_append, drainChunks_replicate_40000]
  · simp only [streaming.AudioBuffer.add, streaming.AudioBuffer.new,
      List.nil_append, drainChunks_replicate_40000]
  · simp only [streaming.AudioBuffer.add, streaming.AudioBuffer.new,
      List.nil_append, drainChunks_replicate_40000,
      streaming.AudioBuffer.flush]
    rw [if_pos (by rw [List.length_replicate]; norm_num)]
  · intro st hne
    simp only [streaming.AudioBuffer.flush]
    rw [if_pos hne]
    split
    · exact ⟨rfl, rfl⟩
    · exact ⟨rfl, rfl⟩
  · simp [streaming.AudioBuffer.flush, streaming.AudioBuffer.new]

/-- Witness for C6 at concrete inputs: a 3-byte add on the (1600, 32000)
buffer, and a flush of a 1-byte (sub-minimum) buffer. -/
theorem C6_audio_chunk_buffer_witness :
    (((streaming.AudioBuffer.new 1600 32000).add [1, 2, 3]).2.flatten ++
      ((streaming.AudioBuffer.new 1600 32000).add [1, 2, 3]).1.buffer =
      (streaming.AudioBuffer.new 1600 32000).buffer ++ [1, 2, 3]) ∧
    ((streaming.AudioBuffer.mk [5] 1600 32000).flush).2 = some [5] :=
  ⟨(C6_audio_chunk_buffer.1 (streaming.AudioBuffer.new 1600 32000)
      [1, 2, 3] rfl).1,
   (C6_audio_chunk_buffer.2.2.2.2.1 (streaming.AudioBuffer.mk [5] 1600 32000)
      (by simp)).1⟩

/-- Claim C7 counterexample: the streaming-path helper silently
substitutes the Linear16/PCM vendor token for a given Opus encoding
(AssemblyAI supports only linear16/mulaw/alaw), while the table mapping
correctly fails closed on the same pair — so "no encoding is ever
silently substituted except when no encoding is given" is false. -/
theorem C7_counterexample :
    streaming.AudioEncoding.to_assemblyai .opus = "pcm_s16le" ∧
    streaming.AudioEncoding.to_assemblyai .opus =
      streaming.AudioEncoding.to_assemblyai .pcm16 ∧
    AudioEncoding.opus ∉ declaredSupport .assemblyAI ∧
    map_encoding_to_provider .opus .assemblyAI =
      .error (unsupportedEncodingMsg .opus .assemblyAI) :=
  ⟨rfl, rfl, by decide, rfl⟩

/-- Claim C7 (amended): `map_encoding_to_provider` succeeds exactly on the
pairs of the vendor's declared support table and otherwise fails with the
message naming the offending encoding and the vendor's full supported
set; however, the streaming helpers `to_assemblyai` and `to_gladia`
totally map every encoding outside their supported set to the
Linear16/PCM token — a silent substitution that happens even when an
encoding was given, not only under the vendor's default when no encoding
is supplied. -/
theorem C7_encoding_mapping :
    (∀ (e : AudioEncoding) (p : StreamingProvider),
        (map_encoding_to_provider e p).isOk = true ↔ e ∈ declaredSupport p) ∧
    (∀ (e : AudioEncoding) (p : StreamingProvider),
        e ∉ declaredSupport p →
        map_encoding_to_provider e p = .error (unsupportedEncodingMsg e p)) ∧
    (∀ e : streaming.AudioEncoding,
        e ∉ ([.pcm16, .mulaw, .alaw] : List streaming.AudioEncoding) →
        streaming.AudioEncoding.to_assemblyai e =
          streaming.AudioEncoding.to_assemblyai .pcm16 ∧
        streaming.AudioEncoding.to_gladia e =
          streaming.AudioEncoding.to_gladia .pcm16) := by
  refine ⟨?_, ?_, ?_⟩
  · intro e p
    cases e <;> cases p <;> decide
  · intro e p h
    cases e <;> cases p <;> first | rfl | exact absurd (by decide) h
  · intro e he
    cases e <;> first
      | exact absurd (by decide) he
      | exact ⟨rfl, rfl⟩

/-- Witness for C7 at concrete inputs: FLAC is rejected by Gladia's table
with the full listing, and the streaming helper substitutes PCM for MP3. -/
theorem C7_encoding_mapping_witness :
    map_encoding_to_provider .flac .gladia =
      .error (unsupportedEncodingMsg .flac .gladia) ∧
    streaming.AudioEncoding.to_gladia .mp3 =
      streaming.AudioEncoding.to_gladia .pcm16 :=
  ⟨C7_encoding_mapping.2.1 .flac .gladia (by decide),
   (C7_encoding_mapping.2.2 .mp3 (by decide)).2⟩

/-- A three-provider round-robin router configuration (providers A, B, C
in iteration order: Gladia, AssemblyAI, Deepgram). -/
def rrConfig3 : VoiceRouterConfig :=
  { providers := [(.gladia, ⟨"k", none, none, none⟩),
                  (.assemblyAI, ⟨"k", none, none, none⟩),
                  (.deepgram, ⟨"k", none, none, none⟩)],
    default_provider := none,
    selection_strategy := .roundRobin }

/-- Claim C8: with three registered adapters A, B, C under RoundRobin, six
sequential `select_provider None` calls return A, B, C, A, B, C; each call
is determined solely by the shared counter modulo the registered-adapter
count, and advances that counter by one. -/
theorem C8_round_robin :
    ((VoiceRouter.new rrConfig3).bind
      (fun r => VoiceRouter.select_seq r 6)).map (·.1) =
      some [.ok .gladia, .ok .assemblyAI, .ok .deepgram,
            .ok .gladia, .ok .assemblyAI, .ok .deepgram] ∧
    ((VoiceRouter.new rrConfig3).bind
      (fun r => VoiceRouter.select_seq r 6)).map (·.2.round_robin_index) =
      some 6 ∧
    (∀ (r : VoiceRouter) (p : TranscriptionProvider)
        (ps : List TranscriptionProvider),
        r.config.selection_strategy = .roundRobin →
        r.adapters = p :: ps →
        VoiceRouter.select_provider r none =
          some (.ok ((p :: ps).getD
              (r.round_robin_index % (p :: ps).length) p),
            { r with round_robin_index := r.round_robin_index + 1 })) := by
  refine ⟨rfl, rfl, ?_⟩
  intro r p ps hs ha
  simp only [VoiceRouter.select_provider, hs, ha]

/-- Witness for C8 at a concrete input: a single-adapter round-robin
router with counter 5 selects that adapter. -/
theorem C8_round_robin_witness :
    VoiceRouter.select_provider
      { adapters := [.deepgram],
        config := { providers := [(.deepgram, ⟨"k", none, none, none⟩)],
                    default_provider := none,
                    selection_strategy := .roundRobin },
        round_robin_index := 5 } none =
      some (.ok .deepgram,
        { adapters := [.deepgram],
          config := { providers := [(.deepgram, ⟨"k", none, none, none⟩)],
                      default_provider := none,
                      selection_strategy := .roundRobin },
          round_robin_index := 6 }) :=
  C8_round_robin.2.2
    { adapters := [.deepgram],
      config := { providers := [(.deepgram, ⟨"k", none, none, none⟩)],
                  default_provider := none,
                  selection_strategy := .roundRobin },
      round_robin_index := 5 } .deepgram [] rfl rfl

/-- Claim C9: router construction with zero configured providers fails
fatally (the panic, embedded as `none`); selecting an explicitly named
but unregistered provider fails `InvalidConfig` with a message listing
the registered providers; and selecting without a provider under the
Explicit strategy always fails `InvalidConfig`. -/
theorem C9_router_failures :
    (∀ cfg : VoiceRouterConfig, cfg.providers = [] →
        VoiceRouter.new cfg = none) ∧
    (∀ (r : VoiceRouter) (x : TranscriptionProvider), x ∉ r.adapters →
        VoiceRouter.select_provider r (some x) =
          some (.error (.invalidConfig
            (VoiceRouter.notRegisteredMsg x
              (VoiceRouter.get_registered_providers r))), r)) ∧
    (∀ r : VoiceRouter, r.config.selection_strategy = .explicitStrategy →
        VoiceRouter.select_provider r none =
          some (.error (.invalidConfig VoiceRouter.explicitStrategyMsg), r)) := by
  refine ⟨?_, ?_, ?_⟩
  · intro cfg h
    simp [VoiceRouter.new, h]
  · intro r x hx
    have hc : r.adapters.contains x = false := by
      simpa using hx
    simp only [VoiceRouter.select_provider, hc, Bool.false_eq_true,
      if_false]
  · intro r h
    simp only [VoiceRouter.select_provider, h]

/-- Witness for C9 at concrete inputs: an empty configuration fails
construction, and a single-adapter Explicit router rejects both an
unregistered provider and a provider-less selection. -/
theorem C9_router_failures_witness :
    VoiceRouter.new ⟨[], none, .defaultStrategy⟩ = none ∧
    VoiceRouter.select_provider
      { adapters := [.gladia],
        config := { providers := [(.gladia, ⟨"k", none, none, none⟩)],
                    default_provider := none,
                    selection_strategy := .explicitStrategy },
        round_robin_index := 0 } (some .deepgram) =
      some (.error (.invalidConfig
        (VoiceRouter.notRegisteredMsg .deepgram [.gladia])),
        { adapters := [.gladia],
          config := { providers := [(.gladia, ⟨"k", none, none, none⟩)],
                      default_provider := none,
                      selection_strategy := .explicitStrategy },
          round_robin_index := 0 }) ∧
    VoiceRouter.select_provider
      { adapters := [.gladia],
        config := { providers := [(.gladia, ⟨"k", none, none, none⟩)],
                    default_provider := none,
                    selection_strategy := .explicitStrategy },
        round_robin_index := 0 } none =
      some (.error (.invalidConfig VoiceRouter.explicitStrategyMsg),
        { adapters := [.gladia],
          config := { providers := [(.gladia, ⟨"k", none, none, none⟩)],
                      default_provider := none,
                      selection_strategy := .explicitStrategy },
          round_robin_index := 0 }) :=
  ⟨C9_router_failures.1 ⟨[], none, .defaultStrategy⟩ rfl,
   C9_router_failures.2.1
     { adapters := [.gladia],
       config := { providers := [(.gladia, ⟨"k", none, none, none⟩)],
                   default_provider := none,
                   selection_strategy := .explicitStrategy },
       round_robin_index := 0 } .deepgram (by decide),
   C9_router_failures.2.2
     { adapters := [.gladia],
       config := { providers := [(.gladia, ⟨"k", none, none, none⟩)],
                   default_provider := none,
                   selection_strategy := .explicitStrategy },
       round_robin_index := 0 } rfl⟩

/-- Claim C2 counterexample: Deepgram's `UtteranceEnd` boundary frame
normalizes to an event with `event_type = Utterance` that carries no
`utterance` payload, refuting "Utterance always carries the utterance". -/
theorem C2_counterexample :
    ((DeepgramAdapter.parse_streaming_message (some .utteranceEnd)).map
      (·.event_type) = some .utterance) ∧
    ((DeepgramAdapter.parse_streaming_message (some .utteranceEnd)).map
      (·.utterance) = some none) :=
  ⟨rfl, rfl⟩

/-- Claim C2 (amended): every normalized `Transcript` event carries no
`utterance` field; every `Utterance` event has `is_final = true`; Gladia's
`Utterance` events always carry the full utterance including its words
(words omitted only when the vendor reported none), while Deepgram's
`UtteranceEnd` boundary event carries no utterance payload, and
AssemblyAI emits no `Utterance` events at all. -/
theorem C2_stream_event_invariant :
    (∀ (m : AaiIncoming) (e : StreamEvent),
        AssemblyAIAdapter.parse_streaming_message m = some e →
        e.utterance = none ∧ e.event_type ≠ .utterance) ∧
    (∀ (m : Option GladiaStreamMessage) (e : StreamEvent),
        GladiaAdapter.parse_streaming_message m = some e →
        (e.event_type = .transcript → e.utterance = none) ∧
        (e.event_type = .utterance →
          e.is_final = some true ∧ e.utterance.isSome = true)) ∧
    (∀ (u : GladiaUtteranceInfo) (e : StreamEvent),
        GladiaAdapter.parse_streaming_message (some (.utterance u)) = some e →
        e.utterance = some
          { text := u.text, start := u.start, end_ := u.end_,
            speaker := u.speaker.map toString,
            confidence := some u.confidence,
            words :=
              if (u.words.map (GladiaAdapter.stream_word u.speaker)).isEmpty
              then none
              else some (u.words.map (GladiaAdapter.stream_word u.speaker)) }) ∧
    (∀ (m : Option DeepgramStreamMessage) (e : StreamEvent),
        DeepgramAdapter.parse_streaming_message m = some e →
        (e.event_type = .transcript → e.utterance = none) ∧
        (e.event_type = .utterance →
          e.is_final = some true ∧ e.utterance = none)) := by
  refine ⟨?_, ?_, ?_, ?_⟩
  · intro m e h
    rcases m with err | m | _
    · simp only [AssemblyAIAdapter.parse_streaming_message,
        Option.some.injEq] at h
      subst h
      exact ⟨rfl, fun hh => nomatch hh⟩
    · rcases m with ⟨id, ex⟩ | ⟨t, eot, conf, ws⟩ | ⟨ad, sd⟩ | d
      · simp only [AssemblyAIAdapter.parse_streaming_message,
          Option.some.injEq] at h
        subst h
        exact ⟨rfl, fun hh => nomatch hh⟩
      · simp only [AssemblyAIAdapter.parse_streaming_message,
          Option.some.injEq] at h
        subst h
        exact ⟨rfl, fun hh => nomatch hh⟩
      · simp only [AssemblyAIAdapter.parse_streaming_message,
          Option.some.injEq] at h
        subst h
        exact ⟨rfl, fun hh => nomatch hh⟩
      · exact nomatch h
    · exact nomatch h
  · intro m e h
    rcases m with _ | msg
    · exact nomatch h
    · rcases msg with ⟨fin, u⟩ | u | d | msg
      · simp only [GladiaAdapter.parse_streaming_message,
          Option.some.injEq] at h
        subst h
        refine ⟨fun _ => rfl, fun hh => (nomatch hh)⟩
      · simp only [GladiaAdapter.parse_streaming_message,
          Option.some.injEq] at h
        subst h
        refine ⟨fun hh => (nomatch hh), fun _ => ⟨rfl, rfl⟩⟩
      · simp only [GladiaAdapter.parse_streaming_message,
          Option.some.injEq] at h
        subst h
        refine ⟨fun hh => (nomatch hh), fun hh => (nomatch hh)⟩
      · simp only [GladiaAdapter.parse_streaming_message,
          Option.some.injEq] at h
        subst h
        refine ⟨fun hh => (nomatch hh), fun hh => (nomatch hh)⟩
  · intro u e h
    simp only [GladiaAdapter.parse_streaming_message,
      Option.some.injEq] at h
    subst h
    rfl
  · intro m e h
    rcases m with _ | msg
    · exact nomatch h
    · rcases msg with ⟨fin, ch⟩ | _ | d
      · simp only [DeepgramAdapter.parse_streaming_message] at h
        rcases hhead : ch.alternatives.head? with _ | alt
        · rw [hhead] at h
          exact nomatch h
        · rw [hhead] at h
          simp only [Option.some.injEq] at h
          subst h
          refine ⟨fun _ => rfl, fun hh => (nomatch hh)⟩
      · simp only [DeepgramAdapter.parse_streaming_message,
          Option.some.injEq] at h
        subst h
        refine ⟨fun hh => (nomatch hh), fun _ => ⟨rfl, rfl⟩⟩
      · simp only [DeepgramAdapter.parse_streaming_message,
          Option.some.injEq] at h
        subst h
        refine ⟨fun hh => (nomatch hh), fun hh => (nomatch hh)⟩

/-- Witness for C2 at concrete messages: an AssemblyAI final turn, a
Gladia utterance boundary, and a Deepgram utterance end. -/
theorem C2_stream_event_invariant_witness :
    ((⟨.transcript, some "hi", some true, none, none, none, some 1, none,
        none⟩ : StreamEvent).utterance = none ∧
      (⟨.transcript, some "hi", some true, none, none, none, some 1, none,
        none⟩ : StreamEvent).event_type ≠ .utterance) ∧
    ((⟨.utterance, some "ok", some true,
        some ⟨"ok", 0, 1, none, some 1, none⟩, none, none, some 1, none,
        none⟩ : StreamEvent).event_type = .utterance →
      (⟨.utterance, some "ok", some true,
        some ⟨"ok", 0, 1, none, some 1, none⟩, none, none, some 1, none,
        none⟩ : StreamEvent).is_final = some true ∧
      (⟨.utterance, some "ok", some true,
        some ⟨"ok", 0, 1, none, some 1, none⟩, none, none, some 1, none,
        none⟩ : StreamEvent).utterance.isSome = true) ∧
    ((⟨.utterance, none, some true, none, none, none, none, none,
        none⟩ : StreamEvent).event_type = .utterance →
      (⟨.utterance, none, some true, none, none, none, none, none,
        none⟩ : StreamEvent).is_final = some true ∧
      (⟨.utterance, none, some true, none, none, none, none, none,
        none⟩ : StreamEvent).utterance = none) :=
  ⟨C2_stream_event_invariant.1 (.typed (.turn "hi" true 1 []))
      ⟨.transcript, some "hi", some true, none, none, none, some 1, none,
        none⟩ rfl,
   (C2_stream_event_invariant.2.1 (some (.utterance ⟨"ok", 0, 1, none, 1, []⟩))
      ⟨.utterance, some "ok", some true,
        some ⟨"ok", 0, 1, none, some 1, none⟩, none, none, some 1, none,
        none⟩ rfl).2,
   (C2_stream_event_invariant.2.2.2 (some .utteranceEnd)
      ⟨.utterance, none, some true, none, none, none, none, none,
        none⟩ rfl).2⟩

/-- A Gladia error-status response carrying vendor error code 410. -/
def gladiaError410 : PreRecordedResponse :=
  ⟨"job-a", .error, some 410, none, none, "2024-01-01", none⟩

/-- A Gladia error-status response carrying vendor error code 500. -/
def gladiaError500 : PreRecordedResponse :=
  ⟨"job-b", .error, some 500, none, none, "2024-01-01", none⟩

/-- Claim C3 counterexample: Gladia error responses normalize with the
fixed message "Transcription failed" — two distinct vendor error
responses yield the same message, so no vendor-specific error message is
preserved in the error's `message` field (only the numeric vendor code
survives, in `status_code`). -/
theorem C3_counterexample :
    (GladiaAdapter.normalize_response gladiaError410).error =
      some ⟨"TRANSCRIPTION_ERROR", "Transcription failed", none, some 410⟩ ∧
    (GladiaAdapter.normalize_response gladiaError500).error =
      some ⟨"TRANSCRIPTION_ERROR", "Transcription failed", none, some 500⟩ ∧
    (GladiaAdapter.normalize_response gladiaError410).error.map (·.message) =
      (GladiaAdapter.normalize_response gladiaError500).error.map (·.message) :=
  ⟨rfl, rfl, rfl⟩

/-- Claim C3 (amended): a vendor error-status batch response normalizes to
success=false with the stable code TRANSCRIPTION_ERROR; AssemblyAI
preserves the vendor's error string in the message (falling back to
"Transcription failed" when the vendor sent none), while Gladia always
uses the fixed message "Transcription failed" and preserves the vendor's
numeric error code in `status_code` instead. -/
theorem C3_vendor_error_normalization :
    (∀ r : AaiTranscript, r.status = .error →
        (AssemblyAIAdapter.normalize_response r).success = false ∧
        (AssemblyAIAdapter.normalize_response r).data = none ∧
        (AssemblyAIAdapter.normalize_response r).error =
          some { code := "TRANSCRIPTION_ERROR",
                 message := r.error.getD "Transcription failed",
                 details := none, status_code := none }) ∧
    (∀ g : PreRecordedResponse, g.status = .error →
        (GladiaAdapter.normalize_response g).success = false ∧
        (GladiaAdapter.normalize_response g).data = none ∧
        (GladiaAdapter.normalize_response g).error =
          some { code := "TRANSCRIPTION_ERROR",
                 message := "Transcription failed",
                 details := none,
                 status_code := g.error_code.map fun c => (c % 65536).toNat }) := by
  constructor
  · intro r h
    simp [AssemblyAIAdapter.normalize_response, h]
  · intro g h
    simp [GladiaAdapter.normalize_response, h]

/-- Witness for C3 at concrete error responses from both vendors. -/
theorem C3_vendor_error_normalization_witness :
    ((AssemblyAIAdapter.normalize_response
        ⟨"t1", .error, some "bad audio", none, none, none, none, none, none,
          none⟩).success = false ∧
      (AssemblyAIAdapter.normalize_response
        ⟨"t1", .error, some "bad audio", none, none, none, none, none, none,
          none⟩).data = none ∧
      (AssemblyAIAdapter.normalize_response
        ⟨"t1", .error, some "bad audio", none, none, none, none, none, none,
          none⟩).error =
        some { code := "TRANSCRIPTION_ERROR", message := "bad audio",
               details := none, status_code := none }) ∧
    ((GladiaAdapter.normalize_response gladiaError410).success = false ∧
      (GladiaAdapter.normalize_response gladiaError410).data = none ∧
      (GladiaAdapter.normalize_response gladiaError410).error =
        some { code := "TRANSCRIPTION_ERROR",
               message := "Transcription failed",
               details := none, status_code := some 410 }) :=
  ⟨C3_vendor_error_normalization.1
      ⟨"t1", .error, some "bad audio", none, none, none, none, none, none,
        none⟩ rfl,
   C3_vendor_error_normalization.2 gladiaError410 rfl⟩

/-- An offline vendor environment for AssemblyAI (every call fails). -/
def aaiEnvOffline : AaiEnv :=
  ⟨fun _ => .error "offline", fun _ _ => .error "offline"⟩

/-- An offline vendor environment for Gladia (every call fails). -/
def gladiaEnvOffline : GladiaEnv :=
  ⟨fun _ => .error "offline", fun _ _ => .error "offline"⟩

/-- An offline vendor environment for Deepgram (every call fails). -/
def dgEnvOffline : DgEnv :=
  ⟨fun _ => .error "offline"⟩

/-- Claim C10 counterexample: on a freshly constructed (uninitialized)
Deepgram adapter, `get_transcript` returns `NotSupported`, not the claimed
`NotInitialized` (and `delete_transcript` likewise uses the trait's
`NotSupported` default). -/
theorem C10_counterexample :
    DeepgramAdapter.new.api_config = none ∧
    DeepgramAdapter.get_transcript DeepgramAdapter.new "abc" =
      .error (.notSupported
        "Deepgram returns results synchronously - use transcribe() instead") ∧
    DeepgramAdapter.get_transcript DeepgramAdapter.new "abc" ≠
      .error .notInitialized ∧
    DeepgramAdapter.delete_transcript DeepgramAdapter.new "abc" =
      .error (.notSupported "Delete not supported by this provider") :=
  ⟨rfl, rfl, by decide, rfl⟩

/-- Claim C10 (amended): on an adapter on which `initialize` has not
succeeded (both state fields still `none`), AssemblyAI's and Gladia's
`transcribe`, `get_transcript`, `delete_transcript` and
`transcribe_stream` all return `NotInitialized` with no vendor call, and
so do Deepgram's `transcribe` and `transcribe_stream`; Deepgram's
`get_transcript` and `delete_transcript` instead return `NotSupported`
regardless of initialization, as they never consult the vendor. -/
theorem C10_not_initialized_guards :
    (∀ a : AssemblyAIAdapter, a.api_config = none → a.config = none →
        (∀ audio opts env, AssemblyAIAdapter.transcribe a audio opts env =
          ⟨.error .notInitialized, 0, 0⟩) ∧
        (∀ id f, AssemblyAIAdapter.get_transcript a id f =
          .error .notInitialized) ∧
        (∀ id d, AssemblyAIAdapter.delete_transcript a id d =
          .error .notInitialized) ∧
        (∀ opts sid, AssemblyAIAdapter.transcribe_stream a opts sid =
          .error .notInitialized)) ∧
    (∀ a : GladiaAdapter, a.api_config = none → a.config = none →
        (∀ audio opts env, GladiaAdapter.transcribe a audio opts env =
          ⟨.error .notInitialized, 0, 0⟩) ∧
        (∀ id f, GladiaAdapter.get_transcript a id f =
          .error .notInitialized) ∧
        (∀ id d, GladiaAdapter.delete_transcript a id d =
          .error .notInitialized) ∧
        (∀ opts ir, GladiaAdapter.transcribe_stream a opts ir =
          .error .notInitialized)) ∧
    (∀ a : DeepgramAdapter, a.api_config = none → a.config = none →
        (∀ audio opts env, DeepgramAdapter.transcribe a audio opts env =
          ⟨.error .notInitialized, 0, 0⟩) ∧
        (∀ opts sid, DeepgramAdapter.transcribe_stream a opts sid =
          .error .notInitialized)) ∧
    (∀ (a : DeepgramAdapter) (id : String),
        DeepgramAdapter.get_transcript a id =
          .error (.notSupported
            "Deepgram returns results synchronously - use transcribe() instead") ∧
        DeepgramAdapter.delete_transcript a id =
          .error (.notSupported "Delete not supported by this provider")) := by
  refine ⟨?_, ?_, ?_, ?_⟩
  · intro a hapi hcfg
    refine ⟨?_, ?_, ?_, ?_⟩
    · intro audio opts env
      simp [AssemblyAIAdapter.transcribe, hapi]
    · intro id f
      simp [AssemblyAIAdapter.get_transcript, hapi]
    · intro id d
      simp [AssemblyAIAdapter.delete_transcript, hapi]
    · intro opts sid
      simp [AssemblyAIAdapter.transcribe_stream, hcfg]
  · intro a hapi hcfg
    refine ⟨?_, ?_, ?_, ?_⟩
    · intro audio opts env
      simp [GladiaAdapter.transcribe, hapi]
    · intro id f
      simp [GladiaAdapter.get_transcript, hapi]
    · intro id d
      simp [GladiaAdapter.delete_transcript, hapi]
    · intro opts ir
      simp [GladiaAdapter.transcribe_stream, hapi]
  · intro a hapi hcfg
    refine ⟨?_, ?_⟩
    · intro audio opts env
      simp [DeepgramAdapter.transcribe, hapi]
    · intro opts sid
      simp [DeepgramAdapter.transcribe_stream, hcfg]
  · intro a id
    exact ⟨rfl, rfl⟩

/-- Witness for C10 on freshly constructed adapters with concrete calls. -/
theorem C10_not_initialized_guards_witness :
    AssemblyAIAdapter.transcribe AssemblyAIAdapter.new (.url "u") none
      aaiEnvOffline = ⟨.error .notInitialized, 0, 0⟩ ∧
    GladiaAdapter.get_transcript GladiaAdapter.new "id" (.error "offline") =
      .error .notInitialized ∧
    DeepgramAdapter.transcribe DeepgramAdapter.new (.url "u") none
      dgEnvOffline = ⟨.error .notInitialized, 0, 0⟩ :=
  ⟨(C10_not_initialized_guards.1 AssemblyAIAdapter.new rfl rfl).1
      (.url "u") none aaiEnvOffline,
   (C10_not_initialized_guards.2.1 GladiaAdapter.new rfl rfl).2.1 "id"
      (.error "offline"),
   (C10_not_initialized_guards.2.2.1 DeepgramAdapter.new rfl rfl).1
      (.url "u") none dgEnvOffline⟩

/-- A Deepgram adapter state after a successful `initialize` with key "k". -/
def dgInitialized : DeepgramAdapter :=
  { config := some ⟨"k", none, none, none⟩,
    api_config := some (DeepgramAdapter.build_api_config ⟨"k", none, none, none⟩) }

/-- A Deepgram environment whose transcription call is acknowledged with
an accepted (callback-registered) response. -/
def dgEnvAccepted : DgEnv := ⟨fun _ => .ok (.accepted ⟨"req-1"⟩)⟩

/-- Claim C4 counterexample: a Deepgram transcribe with a webhook URL,
acknowledged by the vendor's accepted response, returns immediately with
`data.status = Processing`, not the claimed `Queued`. -/
theorem C4_counterexample :
    (DeepgramAdapter.transcribe dgInitialized (.url "u")
      (some { webhook_url := some "https://cb" }) dgEnvAccepted).result =
      .ok (DeepgramAdapter.acceptedImmediateResponse ⟨"req-1"⟩) ∧
    (DeepgramAdapter.transcribe dgInitialized (.url "u")
      (some { webhook_url := some "https://cb" }) dgEnvAccepted).fetches = 0 ∧
    (DeepgramAdapter.acceptedImmediateResponse ⟨"req-1"⟩).data.map (·.status) =
      some .processing ∧
    TranscriptionStatus.processing ≠ .queued :=
  ⟨rfl, rfl, rfl, by decide⟩

/-- Claim C4 (amended): when transcribe is called with a webhook URL and
the submit succeeds, AssemblyAI and Gladia return immediately (zero
polling fetches) with success=true, `data.status = Queued` and an empty
payload; Deepgram — whose immediate return is triggered by the vendor's
accepted response to the registered callback — returns immediately with
success=true, an empty payload, and `data.status = Processing`. -/
theorem C4_webhook_immediate :
    (∀ (a : AssemblyAIAdapter) (u : String) (opts : Option TranscribeOptions)
        (env : AaiEnv) (resp : AaiTranscript),
        a.api_config.isSome = true →
        (opts.bind (·.webhook_url)).isSome = true →
        env.create_transcript
          (AssemblyAIAdapter.build_transcript_params u opts) = .ok resp →
        AssemblyAIAdapter.transcribe a (.url u) opts env =
          ⟨.ok (AssemblyAIAdapter.webhookImmediateResponse resp.id resp),
            0, 0⟩ ∧
        (AssemblyAIAdapter.webhookImmediateResponse resp.id resp).success
          = true ∧
        (AssemblyAIAdapter.webhookImmediateResponse resp.id resp).data =
          some { id := resp.id, text := "", confidence := none,
                 status := .queued, language := none, duration := none,
                 speakers := none, words := none, utterances := none,
                 summary := none, metadata := none, created_at := none,
                 completed_at := none }) ∧
    (∀ (a : GladiaAdapter) (u : String) (opts : Option TranscribeOptions)
        (env : GladiaEnv) (resp : PreRecordedResponse),
        a.api_config.isSome = true →
        (opts.bind (·.webhook_url)).isSome = true →
        env.init_job
          (GladiaAdapter.build_transcription_request u opts) = .ok resp →
        GladiaAdapter.transcribe a (.url u) opts env =
          ⟨.ok (GladiaAdapter.webhookImmediateResponse resp.id resp), 0, 0⟩ ∧
        (GladiaAdapter.webhookImmediateResponse resp.id resp).success
          = true ∧
        (GladiaAdapter.webhookImmediateResponse resp.id resp).data =
          some { id := resp.id, text := "", confidence := none,
                 status := .queued, language := none, duration := none,
                 speakers := none, words := none, utterances := none,
                 summary := none, metadata := none, created_at := none,
                 completed_at := none }) ∧
    (∀ (a : DeepgramAdapter) (u : String) (opts : Option TranscribeOptions)
        (env : DgEnv) (acc : DgAccepted),
        a.api_config.isSome = true →
        (opts.bind (·.webhook_url)).isSome = true →
        env.listen (DeepgramAdapter.build_request u opts) =
          .ok (.accepted acc) →
        DeepgramAdapter.transcribe a (.url u) opts env =
          ⟨.ok (DeepgramAdapter.acceptedImmediateResponse acc), 0, 0⟩ ∧
        (DeepgramAdapter.acceptedImmediateResponse acc).success = true ∧
        (DeepgramAdapter.acceptedImmediateResponse acc).data =
          some { id := acc.request_id, text := "", confidence := none,
                 status := .processing, language := none, duration := none,
                 speakers := none, words := none, utterances := none,
                 summary := none, metadata := none, created_at := none,
                 completed_at := none }) := by
  refine ⟨?_, ?_, ?_⟩
  · intro a u opts env resp hinit hweb hsubmit
    obtain ⟨c, hc⟩ := Option.isSome_iff_exists.mp hinit
    refine ⟨?_, rfl, rfl⟩
    simp [AssemblyAIAdapter.transcribe, hc, hsubmit, hweb]
  · intro a u opts env resp hinit hweb hsubmit
    obtain ⟨c, hc⟩ := Option.isSome_iff_exists.mp hinit
    refine ⟨?_, rfl, rfl⟩
    simp [GladiaAdapter.transcribe, hc, hsubmit, hweb]
  · intro a u opts env acc hinit _hweb hlisten
    obtain ⟨c, hc⟩ := Option.isSome_iff_exists.mp hinit
    refine ⟨?_, rfl, rfl⟩
    simp [DeepgramAdapter.transcribe, hc, hlisten]

/-- An AssemblyAI adapter state after a successful `initialize`. -/
def aaiInitialized : AssemblyAIAdapter :=
  { config := some ⟨"k", none, none, none⟩,
    api_config := some (AssemblyAIAdapter.build_api_config ⟨"k", none, none, none⟩) }

/-- The vendor's acknowledgement of a submitted AssemblyAI job. -/
def aaiSubmitResp : AaiTranscript :=
  ⟨"t-1", .queued, none, none, none, none, none, none, none, none⟩

/-- An AssemblyAI environment whose submit succeeds and whose fetches
never get used. -/
def aaiEnvSubmitOk : AaiEnv :=
  ⟨fun _ => .ok aaiSubmitResp, fun _ _ => .error "offline"⟩

/-- Witness for C4 on a concrete initialized AssemblyAI adapter with a
webhook option and an acknowledged submit. -/
theorem C4_webhook_immediate_witness :
    AssemblyAIAdapter.transcribe aaiInitialized (.url "u")
      (some { webhook_url := some "https://cb" }) aaiEnvSubmitOk =
      ⟨.ok (AssemblyAIAdapter.webhookImmediateResponse "t-1" aaiSubmitResp),
        0, 0⟩ :=
  (C4_webhook_immediate.1 aaiInitialized "u"
    (some { webhook_url := some "https://cb" }) aaiEnvSubmitOk aaiSubmitResp
    rfl rfl rfl).1

namespace AssemblyAIAdapter

/-- A fetch outcome that keeps the polling loop going: a successful fetch
with a non-terminal status. -/
def okNonTerminal (o : Except String AaiTranscript) : Bool :=
  match o with
  | .ok r => !(isTerminal r.status)
  | .error _ => false

/-- The polling loop never issues more fetches than its remaining
iteration budget. -/
theorem poll_loop_fetches_le_aai (env : AaiEnv) (id : String) :
    ∀ (remaining attempt : Nat),
      (poll_loop env id attempt remaining).fetches ≤ remaining := by
  intro remaining
  induction remaining with
  | zero => intro attempt; simp [poll_loop]
  | succ n ih =>
    intro attempt
    simp only [poll_loop]
    cases env.get_transcript id attempt with
    | error e => simp
    | ok r =>
      by_cases ht : isTerminal r.status
      · simp [ht]
      · simp only [ht, if_false, Bool.false_eq_true]
        have := ih (attempt + 1)
        omega

/-- If every fetch in the budget is successful and non-terminal, the loop
exhausts the budget, fetching and sleeping once per iteration, and ends
with the timeout response. -/
theorem poll_loop_all_non_terminal_aai (env : AaiEnv) (id : String) :
    ∀ (remaining attempt : Nat),
      (∀ j, j < remaining →
        okNonTerminal (env.get_transcript id (attempt + j)) = true) →
      poll_loop env id attempt remaining =
        ⟨.ok pollingTimeoutResponse, remaining, remaining⟩ := by
  intro remaining
  induction remaining with
  | zero => intro attempt _; simp [poll_loop]
  | succ n ih =>
    intro attempt hall
    have h0 := hall 0 (Nat.succ_pos n)
    rw [Nat.add_zero] at h0
    cases hg : env.get_transcript id attempt with
    | error e => rw [hg] at h0; simp [okNonTerminal] at h0
    | ok r =>
      rw [hg] at h0
      simp only [okNonTerminal, Bool.not_eq_true'] at h0
      have hrest := ih (attempt + 1) (fun j hj => by
        have := hall (j + 1) (by omega)
        rwa [show attempt + (j + 1) = attempt + 1 + j by omega] at this)
      simp only [poll_loop, hg, h0, Bool.false_eq_true, if_false, hrest]

/-- If attempt `i` is the first terminal fetch within the budget, the
loop returns its normalization after `i + 1` fetches and `i` sleeps. -/
theorem poll_loop_first_terminal_aai (env : AaiEnv) (id : String) :
    ∀ (i attempt remaining : Nat), i < remaining →
      (∀ j, j < i →
        okNonTerminal (env.get_transcript id (attempt + j)) = true) →
      ∀ r : AaiTranscript, env.get_transcript id (attempt + i) = .ok r →
      isTerminal r.status = true →
      poll_loop env id attempt remaining =
        ⟨.ok (normalize_response r), i + 1, i⟩ := by
  intro i
  induction i with
  | zero =>
    intro attempt remaining hlt _ r hget hterm
    rw [Nat.add_zero] at hget
    cases remaining with
    | zero => omega
    | succ n => simp only [poll_loop, hget, hterm, if_true]
  | succ i ih =>
    intro attempt remaining hlt hpre r hget hterm
    cases remaining with
    | zero => omega
    | succ n =>
      have h0 := hpre 0 (Nat.succ_pos i)
      rw [Nat.add_zero] at h0
      cases hg : env.get_transcript id attempt with
      | error e => rw [hg] at h0; simp [okNonTerminal] at h0
      | ok r0 =>
        rw [hg] at h0
        simp only [okNonTerminal, Bool.not_eq_true'] at h0
        have hrest := ih (attempt + 1) n (by omega)
          (fun j hj => by
            have := hpre (j + 1) (by omega)
            rwa [show attempt + (j + 1) = attempt + 1 + j by omega] at this)
          r (by rwa [show attempt + 1 + i = attempt + (i + 1) by omega])
          hterm
        simp only [poll_loop, hg, h0, Bool.false_eq_true, if_false, hrest]

end AssemblyAIAdapter

namespace GladiaAdapter

/-- A fetch outcome that keeps the polling loop going: a successful fetch
with a non-terminal status. -/
def okNonTerminal (o : Except String PreRecordedResponse) : Bool :=
  match o with
  | .ok r => !(isTerminal r.status)
  | .error _ => false

/-- The polling loop never issues more fetches than its remaining
iteration budget. -/
theorem poll_loop_fetches_le_gla (env : GladiaEnv) (id : String) :
    ∀ (remaining attempt : Nat),
      (poll_loop env id attempt remaining).fetches ≤ remaining := by
  intro remaining
  induction remaining with
  | zero => intro attempt; simp [poll_loop]
  | succ n ih =>
    intro attempt
    simp only [poll_loop]
    cases env.get_job id attempt with
    | error e => simp
    | ok r =>
      by_cases ht : isTerminal r.status
      · simp [ht]
      · simp only [ht, if_false, Bool.false_eq_true]
        have := ih (attempt + 1)
        omega

/-- If every fetch in the budget is successful and non-terminal, the loop
exhausts the budget, fetching and sleeping once per iteration, and ends
with the timeout response. -/
theorem poll_loop_all_non_terminal_gla (env : GladiaEnv) (id : String) :
    ∀ (remaining attempt : Nat),
      (∀ j, j < remaining →
        okNonTerminal (env.get_job id (attempt + j)) = true) →
      poll_loop env id attempt remaining =
        ⟨.ok pollingTimeoutResponse, remaining, remaining⟩ := by
  intro remaining
  induction remaining with
  | zero => intro attempt _; simp [poll_loop]
  | succ n ih =>
    intro attempt hall
    have h0 := hall 0 (Nat.succ_pos n)
    rw [Nat.add_zero] at h0
    cases hg : env.get_job id attempt with
    | error e => rw [hg] at h0; simp [okNonTerminal] at h0
    | ok r =>
      rw [hg] at h0
      simp only [okNonTerminal, Bool.not_eq_true'] at h0
      have hrest := ih (attempt + 1) (fun j hj => by
        have := hall (j + 1) (by omega)
        rwa [show attempt + (j + 1) = attempt + 1 + j by omega] at this)
      simp only [poll_loop, hg, h0, Bool.false_eq_true, if_false, hrest]

/-- If attempt `i` is the first terminal fetch within the budget, the
loop returns its normalization after `i + 1` fetches and `i` sleeps. -/
theorem poll_loop_first_terminal_gla (env : GladiaEnv) (id : String) :
    ∀ (i attempt remaining : Nat), i < remaining →
      (∀ j, j < i →
        okNonTerminal (env.get_job id (attempt + j)) = true) →
      ∀ r : PreRecordedResponse, env.get_job id (attempt + i) = .ok r →
      isTerminal r.status = true →
      poll_loop env id attempt remaining =
        ⟨.ok (normalize_response r), i + 1, i⟩ := by
  intro i
  induction i with
  | zero =>
    intro attempt remaining hlt _ r hget hterm
    rw [Nat.add_zero] at hget
    cases remaining with
    | zero => omega
    | succ n => simp only [poll_loop, hget, hterm, if_true]
  | succ i ih =>
    intro attempt remaining hlt hpre r hget hterm
    cases remaining with
    | zero => omega
    | succ n =>
      have h0 := hpre 0 (Nat.succ_pos i)
      rw [Nat.add_zero] at h0
      cases hg : env.get_job id attempt with
      | error e => rw [hg] at h0; simp [okNonTerminal] at h0
      | ok r0 =>
        rw [hg] at h0
        simp only [okNonTerminal, Bool.not_eq_true'] at h0
        have hrest := ih (attempt + 1) n (by omega)
          (fun j hj => by
            have := hpre (j + 1) (by omega)
            rwa [show attempt + (j + 1) = attempt + 1 + j by omega] at this)
          r (by rwa [show attempt + 1 + i = attempt + (i + 1) by omega])
          hterm
        simp only [poll_loop, hg, h0, Bool.false_eq_true, if_false, hrest]

end GladiaAdapter

/-- Claim C5: the batch job pollers (AssemblyAI and Gladia) call `fetch`
at most 120 times with a fixed 1000ms interval constant, return the
normalized result at the first terminal (Completed/Error) fetch — having
slept once per preceding non-terminal fetch — and, when no fetch is
terminal within the 120-attempt ceiling, return a success=false response
with code POLLING_TIMEOUT whose message carries the attempt count and
which has no raw payload. -/
theorem C5_poll_until_done :
    AssemblyAIAdapter.MAX_ATTEMPTS = 120 ∧
    AssemblyAIAdapter.POLL_INTERVAL_MS = 1000 ∧
    GladiaAdapter.MAX_ATTEMPTS = 120 ∧
    GladiaAdapter.POLL_INTERVAL_MS = 1000 ∧
    (∀ (a : AssemblyAIAdapter) (id : String) (env : AaiEnv),
        (AssemblyAIAdapter.poll_for_completion a id env).fetches ≤ 120) ∧
    (∀ (a : AssemblyAIAdapter) (id : String) (env : AaiEnv) (i : Nat)
        (r : AaiTranscript),
        a.api_config.isSome = true → i < 120 →
        (∀ j, j < i → AssemblyAIAdapter.okNonTerminal
          (env.get_transcript id j) = true) →
        env.get_transcript id i = .ok r →
        AssemblyAIAdapter.isTerminal r.status = true →
        AssemblyAIAdapter.poll_for_completion a id env =
          ⟨.ok (AssemblyAIAdapter.normalize_response r), i + 1, i⟩) ∧
    (∀ (a : AssemblyAIAdapter) (id : String) (env : AaiEnv),
        a.api_config.isSome = true →
        (∀ j, j < 120 → AssemblyAIAdapter.okNonTerminal
          (env.get_transcript id j) = true) →
        AssemblyAIAdapter.poll_for_completion a id env =
          ⟨.ok AssemblyAIAdapter.pollingTimeoutResponse, 120, 120⟩) ∧
    AssemblyAIAdapter.pollingTimeoutResponse.success = false ∧
    AssemblyAIAdapter.pollingTimeoutResponse.raw = none ∧
    AssemblyAIAdapter.pollingTimeoutResponse.error =
      some ⟨"POLLING_TIMEOUT",
        "Transcription did not complete after 120 attempts", none, none⟩ ∧
    (∀ (a : GladiaAdapter) (id : String) (env : GladiaEnv),
        (GladiaAdapter.poll_for_completion a id env).fetches ≤ 120) ∧
    (∀ (a : GladiaAdapter) (id : String) (env : GladiaEnv) (i : Nat)
        (r : PreRecordedResponse),
        a.api_config.isSome = true → i < 120 →
        (∀ j, j < i → GladiaAdapter.okNonTerminal
          (env.get_job id j) = true) →
        env.get_job id i = .ok r →
        GladiaAdapter.isTerminal r.status = true →
        GladiaAdapter.poll_for_completion a id env =
          ⟨.ok (GladiaAdapter.normalize_response r), i + 1, i⟩) ∧
    (∀ (a : GladiaAdapter) (id : String) (env : GladiaEnv),
        a.api_config.isSome = true →
        (∀ j, j < 120 → GladiaAdapter.okNonTerminal
          (env.get_job id j) = true) →
        GladiaAdapter.poll_for_completion a id env =
          ⟨.ok GladiaAdapter.pollingTimeoutResponse, 120, 120⟩) ∧
    GladiaAdapter.pollingTimeoutResponse.success = false ∧
    GladiaAdapter.pollingTimeoutResponse.raw = none ∧
    GladiaAdapter.pollingTimeoutResponse.error =
      some ⟨"POLLING_TIMEOUT",
        "Transcription did not complete after 120 attempts", none, none⟩ := by
  refine ⟨rfl, rfl, rfl, rfl, ?_, ?_, ?_, rfl, rfl, rfl, ?_, ?_, ?_, rfl,
    rfl, rfl⟩
  · intro a id env
    cases ha : a.api_config with
    | none => simp [AssemblyAIAdapter.poll_for_completion, ha]
    | some c =>
      simp only [AssemblyAIAdapter.poll_for_completion, ha]
      exact AssemblyAIAdapter.poll_loop_fetches_le_aai env id
        AssemblyAIAdapter.MAX_ATTEMPTS 0
  · intro a id env i r hinit hi hpre hget hterm
    obtain ⟨c, hc⟩ := Option.isSome_iff_exists.mp hinit
    simp only [AssemblyAIAdapter.poll_for_completion, hc]
    exact AssemblyAIAdapter.poll_loop_first_terminal_aai env id i 0
      AssemblyAIAdapter.MAX_ATTEMPTS hi
      (fun j hj => by simpa using hpre j hj) r (by simpa using hget) hterm
  · intro a id env hinit hall
    obtain ⟨c, hc⟩ := Option.isSome_iff_exists.mp hinit
    simp only [AssemblyAIAdapter.poll_for_completion, hc]
    exact AssemblyAIAdapter.poll_loop_all_non_terminal_aai env id
      AssemblyAIAdapter.MAX_ATTEMPTS 0 (fun j hj => by simpa using hall j hj)
  · intro a id env
    cases ha : a.api_config with
    | none => simp [GladiaAdapter.poll_for_completion, ha]
    | some c =>
      simp only [GladiaAdapter.poll_for_completion, ha]
      exact GladiaAdapter.poll_loop_fetches_le_gla env id
        GladiaAdapter.MAX_ATTEMPTS 0
  · intro a id env i r hinit hi hpre hget hterm
    obtain ⟨c, hc⟩ := Option.isSome_iff_exists.mp hinit
    simp only [GladiaAdapter.poll_for_completion, hc]
    exact GladiaAdapter.poll_loop_first_terminal_gla env id i 0
      GladiaAdapter.MAX_ATTEMPTS hi
      (fun j hj => by simpa using hpre j hj) r (by simpa using hget) hterm
  · intro a id env hinit hall
    obtain ⟨c, hc⟩ := Option.isSome_iff_exists.mp hinit
    simp only [GladiaAdapter.poll_for_completion, hc]
    exact GladiaAdapter.poll_loop_all_non_terminal_gla env id
      GladiaAdapter.MAX_ATTEMPTS 0 (fun j hj => by simpa using hall j hj)

/-- A completed AssemblyAI transcript for witness runs. -/
def aaiCompletedResp : AaiTranscript :=
  ⟨"t-2", .completed, none, some (some "hello"), none, none, none, none,
    none, none⟩

/-- An AssemblyAI environment whose every fetch returns the completed
transcript. -/
def aaiEnvDone : AaiEnv :=
  ⟨fun _ => .error "unused", fun _ _ => .ok aaiCompletedResp⟩

/-- A Gladia environment whose every fetch returns a still-queued job. -/
def gladiaEnvQueued : GladiaEnv :=
  ⟨fun _ => .error "unused",
   fun _ _ => .ok ⟨"j-1", .queued, none, none, none, "2024-01-01", none⟩⟩

/-- A Gladia adapter state after a successful `initialize`. -/
def gladiaInitialized : GladiaAdapter :=
  { config := some ⟨"k", none, none, none⟩,
    api_config := some (GladiaAdapter.build_api_config ⟨"k", none, none, none⟩) }

/-- Witness for C5 at concrete environments: an immediately-terminal
AssemblyAI poll (one fetch, zero sleeps) and a never-terminal Gladia poll
exhausting all 120 attempts into the timeout response. -/
theorem C5_poll_until_done_witness :
    AssemblyAIAdapter.poll_for_completion aaiInitialized "t-2" aaiEnvDone =
      ⟨.ok (AssemblyAIAdapter.normalize_response aaiCompletedResp), 1, 0⟩ ∧
    GladiaAdapter.poll_for_completion gladiaInitialized "j-1"
      gladiaEnvQueued =
      ⟨.ok GladiaAdapter.pollingTimeoutResponse, 120, 120⟩ :=
  ⟨C5_poll_until_done.2.2.2.2.2.1 aaiInitialized "t-2" aaiEnvDone 0
      aaiCompletedResp rfl (by norm_num)
      (fun j hj => absurd hj (Nat.not_lt_zero j)) rfl rfl,
   C5_poll_until_done.2.2.2.2.2.2.2.2.2.2.2.2.1 gladiaInitialized "j-1"
      gladiaEnvQueued rfl (fun j _ => rfl)⟩

/-- The canonical response invariant: `data` is present exactly when
`success` holds, and a failed response carries an error and no data. -/
def dataIffSuccess (r : UnifiedTranscriptResponse) : Prop :=
  (r.data.isSome = true ↔ r.success = true) ∧
  (r.success = false → r.error.isSome = true ∧ r.data = none) ∧
  (r.success = true → r.data.isSome = true)

/-- AssemblyAI's normalizer maintains the response invariant. -/
theorem aai_normalize_dataIffSuccess (r : AaiTranscript) :
    dataIffSuccess (AssemblyAIAdapter.normalize_response r) := by
  by_cases h : r.status = .error <;>
    simp [AssemblyAIAdapter.normalize_response, h, dataIffSuccess]

/-- Gladia's normalizer maintains the response invariant. -/
theorem gladia_normalize_dataIffSuccess (r : PreRecordedResponse) :
    dataIffSuccess (GladiaAdapter.normalize_response r) := by
  by_cases h : r.status = .error <;>
    simp [GladiaAdapter.normalize_response, h, dataIffSuccess]

/-- Deepgram's normalizer maintains the response invariant. -/
theorem dg_normalize_dataIffSuccess (r : ListenV1Response) :
    dataIffSuccess (DeepgramAdapter.normalize_response r) := by
  simp [DeepgramAdapter.normalize_response, dataIffSuccess]

/-- The AssemblyAI webhook-immediate response maintains the invariant. -/
theorem aai_webhook_dataIffSuccess (id : String) (r : AaiTranscript) :
    dataIffSuccess (AssemblyAIAdapter.webhookImmediateResponse id r) := by
  simp [AssemblyAIAdapter.webhookImmediateResponse, dataIffSuccess]

/-- The Gladia webhook-immediate response maintains the invariant. -/
theorem gladia_webhook_dataIffSuccess (id : String) (r : PreRecordedResponse) :
    dataIffSuccess (GladiaAdapter.webhookImmediateResponse id r) := by
  simp [GladiaAdapter.webhookImmediateResponse, dataIffSuccess]

/-- The Deepgram accepted-immediate response maintains the invariant. -/
theorem dg_accepted_dataIffSuccess (acc : DgAccepted) :
    dataIffSuccess (DeepgramAdapter.acceptedImmediateResponse acc) := by
  simp [DeepgramAdapter.acceptedImmediateResponse, dataIffSuccess]

/-- Both polling-timeout responses maintain the invariant. -/
theorem timeout_dataIffSuccess :
    dataIffSuccess AssemblyAIAdapter.pollingTimeoutResponse ∧
    dataIffSuccess GladiaAdapter.pollingTimeoutResponse := by
  constructor <;>
    simp [AssemblyAIAdapter.pollingTimeoutResponse,
      GladiaAdapter.pollingTimeoutResponse, dataIffSuccess]

/-- Every successful outcome of the AssemblyAI polling loop maintains the
invariant. -/
theorem aai_poll_loop_dataIffSuccess (env : AaiEnv) (id : String) :
    ∀ (remaining attempt : Nat) (u : UnifiedTranscriptResponse),
      (AssemblyAIAdapter.poll_loop env id attempt remaining).result = .ok u →
      dataIffSuccess u := by
  intro remaining
  induction remaining with
  | zero =>
    intro attempt u h
    simp only [AssemblyAIAdapter.poll_loop, Except.ok.injEq] at h
    subst h
    exact timeout_dataIffSuccess.1
  | succ n ih =>
    intro attempt u h
    cases hg : env.get_transcript id attempt with
    | error e =>
      simp only [AssemblyAIAdapter.poll_loop, hg] at h
      exact nomatch h
    | ok r =>
      simp only [AssemblyAIAdapter.poll_loop, hg] at h
      by_cases ht : AssemblyAIAdapter.isTerminal r.status = true
      · rw [if_pos ht] at h
        simp only [Except.ok.injEq] at h
        subst h
        exact aai_normalize_dataIffSuccess r
      · rw [if_neg ht] at h
        exact ih (attempt + 1) u h

/-- Every successful outcome of the Gladia polling loop maintains the
invariant. -/
theorem gladia_poll_loop_dataIffSuccess (env : GladiaEnv) (id : String) :
    ∀ (remaining attempt : Nat) (u : UnifiedTranscriptResponse),
      (GladiaAdapter.poll_loop env id attempt remaining).result = .ok u →
      dataIffSuccess u := by
  intro remaining
  induction remaining with
  | zero =>
    intro attempt u h
    simp only [GladiaAdapter.poll_loop, Except.ok.injEq] at h
    subst h
    exact timeout_dataIffSuccess.2
  | succ n ih =>
    intro attempt u h
    cases hg : env.get_job id attempt with
    | error e =>
      simp only [GladiaAdapter.poll_loop, hg] at h
      exact nomatch h
    | ok r =>
      simp only [GladiaAdapter.poll_loop, hg] at h
      by_cases ht : GladiaAdapter.isTerminal r.status = true
      · rw [if_pos ht] at h
        simp only [Except.ok.injEq] at h
        subst h
        exact gladia_normalize_dataIffSuccess r
      · rw [if_neg ht] at h
        exact ih (attempt + 1) u h

/-- Every successful outcome of AssemblyAI's `transcribe` maintains the
invariant. -/
theorem aai_transcribe_dataIffSuccess (a : AssemblyAIAdapter)
    (audio : AudioInput) (opts : Option TranscribeOptions) (env : AaiEnv)
    (u : UnifiedTranscriptResponse)
    (h : (AssemblyAIAdapter.transcribe a audio opts env).result = .ok u) :
    dataIffSuccess u := by
  cases ha : a.api_config with
  | none =>
    simp only [AssemblyAIAdapter.transcribe, ha] at h
    exact nomatch h
  | some c =>
    cases audio with
    | bytes d f =>
      simp only [AssemblyAIAdapter.transcribe, ha] at h
      exact nomatch h
    | stream =>
      simp only [AssemblyAIAdapter.transcribe, ha] at h
      exact nomatch h
    | url audio_url =>
      cases hs : env.create_transcript
          (AssemblyAIAdapter.build_transcript_params audio_url opts) with
      | error e =>
        simp only [AssemblyAIAdapter.transcribe, ha, hs] at h
        exact nomatch h
      | ok resp =>
        simp only [AssemblyAIAdapter.transcribe, ha, hs] at h
        by_cases hw : (opts.bind (·.webhook_url)).isSome = true
        · rw [if_pos hw] at h
          simp only [Except.ok.injEq] at h
          subst h
          exact aai_webhook_dataIffSuccess resp.id resp
        · rw [if_neg hw] at h
          simp only [AssemblyAIAdapter.poll_for_completion, ha] at h
          exact aai_poll_loop_dataIffSuccess env resp.id
            AssemblyAIAdapter.MAX_ATTEMPTS 0 u h

/-- Every successful outcome of Gladia's `transcribe` maintains the
invariant. -/
theorem gladia_transcribe_dataIffSuccess (a : GladiaAdapter)
    (audio : AudioInput) (opts : Option TranscribeOptions) (env : GladiaEnv)
    (u : UnifiedTranscriptResponse)
    (h : (GladiaAdapter.transcribe a audio opts env).result = .ok u) :
    dataIffSuccess u := by
  cases ha : a.api_config with
  | none =>
    simp only [GladiaAdapter.transcribe, ha] at h
    exact nomatch h
  | some c =>
    cases audio with
    | bytes d f =>
      simp only [GladiaAdapter.transcribe, ha] at h
      exact nomatch h
    | stream =>
      simp only [GladiaAdapter.transcribe, ha] at h
      exact nomatch h
    | url audio_url =>
      cases hs : env.init_job
          (GladiaAdapter.build_transcription_request audio_url opts) with
      | error e =>
        simp only [GladiaAdapter.transcribe, ha, hs] at h
        exact nomatch h
      | ok resp =>
        simp only [GladiaAdapter.transcribe, ha, hs] at h
        by_cases hw : (opts.bind (·.webhook_url)).isSome = true
        · rw [if_pos hw] at h
          simp only [Except.ok.injEq] at h
          subst h
          exact gladia_webhook_dataIffSuccess resp.id resp
        · rw [if_neg hw] at h
          simp only [GladiaAdapter.poll_for_completion, ha] at h
          exact gladia_poll_loop_dataIffSuccess env resp.id
            GladiaAdapter.MAX_ATTEMPTS 0 u h

/-- Every successful outcome of Deepgram's `transcribe` maintains the
invariant. -/
theorem dg_transcribe_dataIffSuccess (a : DeepgramAdapter)
    (audio : AudioInput) (opts : Option TranscribeOptions) (env : DgEnv)
    (u : UnifiedTranscriptResponse)
    (h : (DeepgramAdapter.transcribe a audio opts env).result = .ok u) :
    dataIffSuccess u := by
  cases ha : a.api_config with
  | none =>
    simp only [DeepgramAdapter.transcribe, ha] at h
    exact nomatch h
  | some c =>
    cases audio with
    | bytes d f =>
      simp only [DeepgramAdapter.transcribe, ha] at h
      exact nomatch h
    | stream =>
      simp only [DeepgramAdapter.transcribe, ha] at h
      exact nomatch h
    | url audio_url =>
      cases hs : env.listen (DeepgramAdapter.build_request audio_url opts) with
      | error e =>
        simp only [DeepgramAdapter.transcribe, ha, hs] at h
        exact nomatch h
      | ok resp =>
        cases resp with
        | response r =>
          simp only [DeepgramAdapter.transcribe, ha, hs,
            Except.ok.injEq] at h
          subst h
          exact dg_normalize_dataIffSuccess r
        | accepted acc =>
          simp only [DeepgramAdapter.transcribe, ha, hs,
            Except.ok.injEq] at h
          subst h
          exact dg_accepted_dataIffSuccess acc

/-- Claim C1: for every `UnifiedTranscriptResponse` produced by any
adapter operation — the batch normalizers, `transcribe` (including the
webhook-immediate and accepted-callback return paths), `get_transcript`,
and the batch pollers — `data` is present iff `success` is true, every
failed response carries an error and no data, and every successful
response carries data. -/
theorem C1_data_iff_success :
    (∀ r : AaiTranscript,
        dataIffSuccess (AssemblyAIAdapter.normalize_response r)) ∧
    (∀ r : PreRecordedResponse,
        dataIffSuccess (GladiaAdapter.normalize_response r)) ∧
    (∀ r : ListenV1Response,
        dataIffSuccess (DeepgramAdapter.normalize_response r)) ∧
    (∀ (a : AssemblyAIAdapter) (audio : AudioInput)
        (opts : Option TranscribeOptions) (env : AaiEnv)
        (u : UnifiedTranscriptResponse),
        (AssemblyAIAdapter.transcribe a audio opts env).result = .ok u →
        dataIffSuccess u) ∧
    (∀ (a : GladiaAdapter) (audio : AudioInput)
        (opts : Option TranscribeOptions) (env : GladiaEnv)
        (u : UnifiedTranscriptResponse),
        (GladiaAdapter.transcribe a audio opts env).result = .ok u →
        dataIffSuccess u) ∧
    (∀ (a : DeepgramAdapter) (audio : AudioInput)
        (opts : Option TranscribeOptions) (env : DgEnv)
        (u : UnifiedTranscriptResponse),
        (DeepgramAdapter.transcribe a audio opts env).result = .ok u →
        dataIffSuccess u) ∧
    (∀ (a : AssemblyAIAdapter) (id : String)
        (f : Except String AaiTranscript) (u : UnifiedTranscriptResponse),
        AssemblyAIAdapter.get_transcript a id f = .ok u →
        dataIffSuccess u) ∧
    (∀ (a : GladiaAdapter) (id : String)
        (f : Except String PreRecordedResponse)
        (u : UnifiedTranscriptResponse),
        GladiaAdapter.get_transcript a id f = .ok u →
        dataIffSuccess u) ∧
    (∀ (a : AssemblyAIAdapter) (id : String) (env : AaiEnv)
        (u : UnifiedTranscriptResponse),
        (AssemblyAIAdapter.poll_for_completion a id env).result = .ok u →
        dataIffSuccess u) ∧
    (∀ (a : GladiaAdapter) (id : String) (env : GladiaEnv)
        (u : UnifiedTranscriptResponse),
        (GladiaAdapter.poll_for_completion a id env).result = .ok u →
        dataIffSuccess u) := by
  refine ⟨aai_normalize_dataIffSuccess, gladia_normalize_dataIffSuccess,
    dg_normalize_dataIffSuccess, aai_transcribe_dataIffSuccess,
    gladia_transcribe_dataIffSuccess, dg_transcribe_dataIffSuccess,
    ?_, ?_, ?_, ?_⟩
  · intro a id f u h
    cases ha : a.api_config with
    | none =>
      simp only [AssemblyAIAdapter.get_transcript, ha] at h
      exact nomatch h
    | some c =>
      cases hf : f with
      | error e =>
        simp only [AssemblyAIAdapter.get_transcript, ha, hf] at h
        exact nomatch h
      | ok r =>
        simp only [AssemblyAIAdapter.get_transcript, ha, hf,
          Except.ok.injEq] at h
        subst h
        exact aai_normalize_dataIffSuccess r
  · intro a id f u h
    cases ha : a.api_config with
    | none =>
      simp only [GladiaAdapter.get_transcript, ha] at h
      exact nomatch h
    | some c =>
      cases hf : f with
      | error e =>
        simp only [GladiaAdapter.get_transcript, ha, hf] at h
        exact nomatch h
      | ok r =>
        simp only [GladiaAdapter.get_transcript, ha, hf,
          Except.ok.injEq] at h
        subst h
        exact gladia_normalize_dataIffSuccess r
  · intro a id env u h
    cases ha : a.api_config with
    | none =>
      simp only [AssemblyAIAdapter.poll_for_completion, ha] at h
      exact nomatch h
    | some c =>
      simp only [AssemblyAIAdapter.poll_for_completion, ha] at h
      exact aai_poll_loop_dataIffSuccess env id
        AssemblyAIAdapter.MAX_ATTEMPTS 0 u h
  · intro a id env u h
    cases ha : a.api_config with
    | none =>
      simp only [GladiaAdapter.poll_for_completion, ha] at h
      exact nomatch h
    | some c =>
      simp only [GladiaAdapter.poll_for_completion, ha] at h
      exact gladia_poll_loop_dataIffSuccess env id
        GladiaAdapter.MAX_ATTEMPTS 0 u h

/-- Witness for C1 at concrete runs: the webhook-immediate response of a
concrete AssemblyAI transcribe and the normalization of a concrete
completed transcript both satisfy the invariant. -/
theorem C1_data_iff_success_witness :
    dataIffSuccess
      (AssemblyAIAdapter.webhookImmediateResponse "t-1" aaiSubmitResp) ∧
    dataIffSuccess
      (AssemblyAIAdapter.normalize_response aaiCompletedResp) :=
  ⟨C1_data_iff_success.2.2.2.1 aaiInitialized (.url "u")
      (some { webhook_url := some "https://cb" }) aaiEnvSubmitOk
      (AssemblyAIAdapter.webhookImmediateResponse "t-1" aaiSubmitResp) rfl,
   C1_data_iff_success.1 aaiCompletedResp⟩
